import Mathlib

/-!
Verification development for the speech-synthesis orchestrator of the
grahakchetna repository (src/tts_service.py).

The module is shallowly embedded:

* text is a `List Char`; Python string operations (`strip`, the two `re.sub`
  passes of `_collapse_whitespace`, `rfind`, slicing) are translated into
  executable list functions;
* the filesystem is a map from paths to file sizes (`FS`); `os.path.exists`,
  `os.path.getsize`, `os.remove` and `os.replace` are explicit state
  transformers;
* each external synthesis backend is an injected behaviour (what the external
  call would do on each invocation); the adapters and the orchestrator
  (`_edge_tts_with_smart_retry`, `_elevenlabs_tts`, `_gtts_tts`,
  `_pyttsx3_tts`, `generate_voice_async`, `generate_voice`) are translated
  from the source, recording the provider invocations they perform as an
  explicit event trace.
-/

namespace TTS

/-! ### Configuration constants (tts_service.py lines 49-90) -/

def PRIMARY_VOICE : String := "en-US-AriaNeural"

def FALLBACK_VOICES : List String :=
  ["en-US-JennyNeural", "en-US-AmberNeural", "en-US-AvaNeural", "en-US-SaraNeural"]

def VALID_VOICES : List String :=
  ["en-US-AriaNeural", "en-US-AmberNeural", "en-US-AshleyNeural",
   "en-US-AvaNeural", "en-US-CoraNeural", "en-US-ElizabethNeural",
   "en-US-JennyNeural", "en-US-MichelleNeural", "en-US-MonicaNeural",
   "en-US-SaraNeural",
   "en-US-BrianNeural", "en-US-ChristopherNeural", "en-US-EricNeural",
   "en-US-GuyNeural", "en-US-JacobNeural", "en-US-RyanNeural",
   "en-US-TonyNeural"]

def DEFAULT_OUTPUT_DIR : String := "output"

def CACHE_DIR : String := "output/cache"

def DEFAULT_OUTPUT_PATH : String := "output/voice.mp3"

def MIN_TEXT_LENGTH : Nat := 1

def MAX_TEXT_LENGTH : Nat := 1000

/-! ### Voice validation and fallback (tts_service.py lines 112-168) -/

/-- Translation of `validate_voice_name`: a voice is valid when it is a
non-empty string belonging to `VALID_VOICES`. -/
def validate_voice_name (voice : String) : Bool :=
  voice ≠ "" && VALID_VOICES.contains voice

/-- Default branch of `get_best_voice`: the primary voice when valid, else the
first valid fallback voice, else the primary voice as a last resort. -/
def get_best_voice_default : String :=
  if validate_voice_name PRIMARY_VOICE then PRIMARY_VOICE
  else
    match FALLBACK_VOICES.find? (fun v => validate_voice_name v) with
    | some v => v
    | none => PRIMARY_VOICE

/-- Translation of `get_best_voice`: the requested voice when present and
valid, otherwise the default chain. -/
def get_best_voice : Option String → String
  | some v => if validate_voice_name v then v else get_best_voice_default
  | none => get_best_voice_default

/-! ### Text preprocessing (tts_service.py lines 176-261) -/

/-- ASCII test from `_remove_emojis_and_non_ascii`: `ord(char) < 128`. -/
def isAsciiChar (c : Char) : Bool := c.toNat < 128

/-- Translation of `_remove_emojis_and_non_ascii`: keep a character when it is
ASCII, or when it is the space character (the `elif char in ' '` branch). -/
def remove_emojis_and_non_ascii (l : List Char) : List Char :=
  l.filter (fun c => isAsciiChar c || c = ' ')

/-- Character class of the first `re.sub` in `_collapse_whitespace`:
the regex `[\n\r\t]`. -/
def isNRT (c : Char) : Bool := c = '\n' || c = '\r' || c = '\t'

/-- Characters that Python `str.strip()` removes, restricted to the ASCII
range: space, `\t`, `\n`, `\v`, `\f`, `\r`, and the separator control
characters `\x1c`-`\x1f`. -/
def pyIsSpace (c : Char) : Bool :=
  c.toNat = 32 || c.toNat = 9 || c.toNat = 10 || c.toNat = 11 || c.toNat = 12 ||
  c.toNat = 13 || c.toNat = 28 || c.toNat = 29 || c.toNat = 30 || c.toNat = 31

/-- Replace every maximal run of characters satisfying `p` by a single space.
`subRuns isNRT` is the regex substitution `re.sub(r'[\n\r\t]+', ' ', text)`;
`subRuns (fun c => c = ' ')` is `re.sub(r' {2,}', ' ', text)` (a maximal run
of one space is rewritten to itself, so collapsing every run of spaces to a
single space is the same substitution). -/
def subRuns (p : Char → Bool) : List Char → List Char
  | [] => []
  | c :: cs =>
    if p c then
      match cs with
      | [] => [' ']
      | c2 :: cs' =>
        if p c2 then subRuns p (c2 :: cs') else ' ' :: subRuns p (c2 :: cs')
    else c :: subRuns p cs

/-- Python `str.strip()`: drop leading and trailing whitespace. -/
def pstrip (l : List Char) : List Char :=
  ((l.dropWhile pyIsSpace).reverse.dropWhile pyIsSpace).reverse

/-- Translation of `_collapse_whitespace`: substitute newline/tab runs by a
space, collapse space runs, then strip. -/
def collapse_whitespace (l : List Char) : List Char :=
  pstrip (subRuns (fun c => c = ' ') (subRuns isNRT l))

/-- Python `text.rfind(' ')`: index of the last space, `-1` when absent. -/
def rfind_space : List Char → Int
  | [] => -1
  | c :: cs =>
    if 0 ≤ rfind_space cs then rfind_space cs + 1 else if c = ' ' then 0 else -1

/-- Step 5 of `preprocess_text` (lines 245-252): when the text exceeds
`max_length`, truncate to the first `max_length` characters, then backtrack to
the last space when that space lies strictly past eighty percent of the
window.  The Python comparison is `last_space > max_length * 0.8`; it is
rendered exactly as the rational comparison `5 * last_space > 4 * max_length`
(for the shipped `MAX_TEXT_LENGTH = 1000` the float product `1000 * 0.8` is
the exact double `800.0`, so the two comparisons agree). -/
def truncate_step (t : List Char) (max_length : Nat) : List Char :=
  if max_length < t.length then
    let tt := t.take max_length
    let ls := rfind_space tt
    if 4 * (max_length : Int) < 5 * ls then tt.take ls.toNat else tt
  else t

/-- Translation of `preprocess_text` (lines 202-261): strip, drop
non-ASCII, collapse whitespace, enforce the minimum length, truncate to
`max_length` with the word-boundary backtrack, and strip again.  The empty
list is the sentinel for every rejection branch. -/
def preprocess_text (text : List Char) (max_length : Nat := 1000) : List Char :=
  if text = [] then []
  else
    let t1 := pstrip text
    if t1 = [] then []
    else
      let t2 := remove_emojis_and_non_ascii t1
      let t3 := collapse_whitespace t2
      if t3 = [] then []
      else
        if t3.length < MIN_TEXT_LENGTH then []
        else
          let t4 := truncate_step t3 max_length
          let final := pstrip t4
          if final = [] then [] else final

/-! ### Error classification (tts_service.py lines 278-341) -/

/-- ASCII lower-casing of one character, as Python `str.lower()` acts on the
ASCII range. -/
def asciiLower (c : Char) : Char :=
  if 'A' ≤ c ∧ c ≤ 'Z' then Char.ofNat (c.toNat + 32) else c

/-- Prefix test used by the substring search. -/
def startsWithChars : List Char → List Char → Bool
  | [], _ => true
  | _ :: _, [] => false
  | a :: as, b :: bs => a = b && startsWithChars as bs

/-- Python substring membership `sub in s` over character lists. -/
def containsSub (sub : List Char) : List Char → Bool
  | [] => startsWithChars sub []
  | c :: rest => startsWithChars sub (c :: rest) || containsSub sub rest

/-- Python `sub in str(e).lower()` as used by `_is_retryable_error`. -/
def errContains (e : List Char) (sub : String) : Bool :=
  containsSub sub.data e

/-- Python `str(error).lower()`: the lower-cased error representation
inspected by the classifier. -/
def lowered (err : String) : List Char := err.data.map asciiLower

/-- Translation of `_is_retryable_error`: a deterministic classification of an
error through substring tests on its lower-cased string representation, with
the non-retryable tests taking precedence and unknown errors defaulting to
retryable. -/
def is_retryable_error (err : String) : Bool :=
  let e := lowered err
  if errContains e "noaudioreceived" || errContains e "no audio received" then false
  else if errContains e "400" || errContains e "bad request" then false
  else if errContains e "404" || errContains e "not found" then false
  else if errContains e "encode" || errContains e "decode" || errContains e "utf" then false
  else if errContains e "403" || errContains e "forbidden" then true
  else if errContains e "503" || errContains e "service unavailable" ||
          errContains e "temporarily unavailable" then true
  else if errContains e "timeout" || errContains e "connection" ||
          errContains e "refused" || errContains e "reset" then true
  else true

/-! ### Filesystem model

A filesystem maps each path to the size of the file stored there (if any).
`os.replace` is POSIX `rename`: the source file is moved onto the destination,
overwriting it; renaming a path onto itself is a no-op. -/

def FS : Type := String → Option Nat

def fsSet (fs : FS) (p : String) (v : Option Nat) : FS :=
  fun q => if q = p then v else fs q

def os_path_exists (fs : FS) (p : String) : Bool := (fs p).isSome

def os_path_getsize (fs : FS) (p : String) : Nat := (fs p).getD 0

def os_remove (fs : FS) (p : String) : FS := fsSet fs p none

def os_replace (fs : FS) (src dst : String) : FS :=
  if src = dst then fs else fsSet (fsSet fs dst (fs src)) src none

/-- Filesystem with no files. -/
def emptyFS : FS := fun _ => none

/-! ### Cache path (tts_service.py lines 268-271) -/

/-- Stand-in for `hashlib.md5(text.encode()).hexdigest()`.  The digest comes
from an external library; every claim uses only that it is a fixed
deterministic function of the text, so it is modelled as an abstract
deterministic encoding of the text. -/
def md5_hexdigest (text : String) : String := text

/-- Translation of `get_cache_path`: deterministic path inside `CACHE_DIR`
derived from the hash of the text. -/
def get_cache_path (text : String) : String :=
  CACHE_DIR ++ "/" ++ md5_hexdigest text ++ ".mp3"

/-! ### Provider behaviours and the event trace

The external backends are injected as behaviours describing what each
external call would do.  Every provider invocation the orchestrator performs
is recorded in an event trace. -/

/-- Outcome of one `communicate.save(output_path)` call of the Edge TTS
library: it wrote a file of some size, completed without creating the file,
or raised (including the 30-second `asyncio.wait_for` timeout). -/
inductive EdgeSaveResult where
  | wrote (size : Nat)
  | noFile
  | raised (err : String)

/-- Outcome of the `requests.post` call inside `_elevenlabs_tts`: an HTTP
response with a status code and a content size, or a raised exception. -/
inductive ElevenHttpResult where
  | response (status : Nat) (content_size : Nat)
  | raised (err : String)

/-- Outcome of a gTTS `tts.save` or pyttsx3 `runAndWait` library call. -/
inductive TtsLibResult where
  | wrote (size : Nat)
  | noFile
  | raised (err : String)

/-- Events recorded while a synthesis request runs:
`attempted n` mirrors `attempted_providers.append(n)`; `edgeCall n` is the
n-th `_do_edge_tts` network call; `classify e r` is an `_is_retryable_error`
invocation returning `r`; `backoff t` is the retry sleep (in tenths of a
second); `elevenSkip` is the unconfigured-key early return of
`_elevenlabs_tts`; `elevenCall`, `gttsCall`, `pyttsxCall` are the network or
library calls of the remaining adapters. -/
inductive ProvEvent where
  | attempted (name : String)
  | edgeCall (attempt : Nat)
  | classify (err : String) (retryable : Bool)
  | backoff (tenths : Nat)
  | elevenSkip
  | elevenCall
  | gttsCall
  | pyttsxCall
deriving DecidableEq

/-- Whether an event is an actual synthesis call into an external provider. -/
def isSynthEvent : ProvEvent → Bool
  | .edgeCall _ => true
  | .elevenCall => true
  | .gttsCall => true
  | .pyttsxCall => true
  | _ => false

/-- Number of provider synthesis invocations in a trace. -/
def synthCalls (evs : List ProvEvent) : Nat := (evs.filter isSynthEvent).length

/-- Number of Edge TTS attempts in a trace. -/
def edgeCalls (evs : List ProvEvent) : Nat :=
  (evs.filter (fun e => match e with | .edgeCall _ => true | _ => false)).length

/-- Number of ElevenLabs network calls in a trace. -/
def elevenCalls (evs : List ProvEvent) : Nat :=
  (evs.filter (fun e => e = ProvEvent.elevenCall)).length

/-- Number of error-classifier invocations in a trace. -/
def classifyCalls (evs : List ProvEvent) : Nat :=
  (evs.filter (fun e => match e with | .classify _ _ => true | _ => false)).length

/-- Backoff delays of a trace, in order, in tenths of a second. -/
def backoffList (evs : List ProvEvent) : List Nat :=
  evs.filterMap (fun e => match e with | .backoff t => some t | _ => none)

/-- Provider names appended to `attempted_providers`, in order. -/
def attemptedNames (evs : List ProvEvent) : List String :=
  evs.filterMap (fun e => match e with | .attempted n => some n | _ => none)

/-! ### Edge TTS adapter with smart retry (tts_service.py lines 413-561) -/

/-- Verification tail of `_do_edge_tts` (lines 486-497): the output file must
exist and exceed 1000 bytes; an undersized file is removed and reported as a
failure, a missing file is a failure. -/
def edge_verify (fs : FS) (out : String) : FS × Except String Unit :=
  if os_path_exists fs out = true then
    if 1000 < os_path_getsize fs out then (fs, Except.ok ())
    else
      (os_remove fs out,
       Except.error ("Invalid output file size: " ++ toString (os_path_getsize fs out) ++ " bytes"))
  else (fs, Except.error "Output file was not created")

/-- Translation of `_do_edge_tts` (lines 461-505): perform the save call,
verify the result, and on any raised error remove whatever file is at the
output path before propagating the error. -/
def do_edge_tts (fs : FS) (out : String) (save : EdgeSaveResult) : FS × Except String Unit :=
  match save with
  | .raised err =>
    ((if os_path_exists fs out = true then os_remove fs out else fs), Except.error err)
  | .wrote size => edge_verify (fsSet fs out (some size)) out
  | .noFile => edge_verify fs out

/-- Backoff before the next attempt (lines 546-554), in tenths of a second:
`min(2 ** attempt, 32)` seconds plus a jitter of `0.1 * (attempt % 2)`. -/
def backoff_tenths (attempt : Nat) : Nat := 10 * min (2 ^ attempt) 32 + attempt % 2

/-- Translation of the retry loop of `_edge_tts_with_smart_retry`
(lines 507-561).  The first `Nat` argument counts the attempts still
available (the loop `for attempt in range(1, max_attempts + 1)` has
`max_attempts + 1 - attempt` iterations left at attempt number `attempt`);
the second is the current attempt number: run `_do_edge_tts`; on success
stop; on a failure consult the classifier, stop immediately when the error is
non-retryable, otherwise sleep the backoff and move to the next attempt while
attempts remain. Returns the filesystem, the event trace and the success
flag. -/
def edge_retry_go (edge : Nat → EdgeSaveResult) (out : String) :
    Nat → Nat → FS → FS × List ProvEvent × Bool
  | 0, _, fs => (fs, [], false)
  | Nat.succ rem, attempt, fs =>
    let step := do_edge_tts fs out (edge attempt)
    match step.2 with
    | Except.ok _ => (step.1, [ProvEvent.edgeCall attempt], true)
    | Except.error err =>
      let retryable := is_retryable_error err
      let evs := [ProvEvent.edgeCall attempt, ProvEvent.classify err retryable]
      if retryable = false then (step.1, evs, false)
      else
        if 0 < rem then
          let rest := edge_retry_go edge out rem (attempt + 1) step.1
          (rest.1, evs ++ ProvEvent.backoff (backoff_tenths attempt) :: rest.2.1, rest.2.2)
        else (step.1, evs, false)

/-- Translation of `_edge_tts_with_smart_retry` as invoked by the
orchestrator: the retry loop started at attempt 1 with `max_attempts`
attempts available. -/
def edge_tts_with_smart_retry (edge : Nat → EdgeSaveResult) (out : String)
    (max_attempts : Nat) (fs : FS) : FS × List ProvEvent × Bool :=
  edge_retry_go edge out max_attempts 1 fs

/-! ### ElevenLabs adapter (tts_service.py lines 349-406) -/

/-- Translation of `_elevenlabs_tts`: when no API key is configured, return
failure immediately without any network call; otherwise perform the HTTP
POST; on status 200 write the response content to the output path and return
success (no validation of the written file); on any other status or a raised
exception return failure. -/
def elevenlabs_tts (key : Option String) (http : ElevenHttpResult) (fs : FS)
    (out : String) : FS × List ProvEvent × Bool :=
  match key with
  | none => (fs, [ProvEvent.elevenSkip], false)
  | some _ =>
    match http with
    | .response status content_size =>
      if status = 200 then (fsSet fs out (some content_size), [ProvEvent.elevenCall], true)
      else (fs, [ProvEvent.elevenCall], false)
    | .raised _ => (fs, [ProvEvent.elevenCall], false)

/-! ### gTTS adapter (tts_service.py lines 568-608) -/

/-- Translation of `_gtts_tts`: run the library save, then require the output
file to exist with more than 1000 bytes; otherwise remove any file at the
output path and fail; on a raised exception remove any file and fail. -/
def gtts_tts (g : TtsLibResult) (fs : FS) (out : String) : FS × List ProvEvent × Bool :=
  match g with
  | .wrote size =>
    let fs1 := fsSet fs out (some size)
    if os_path_exists fs1 out = true ∧ 1000 < os_path_getsize fs1 out then
      (fs1, [ProvEvent.gttsCall], true)
    else
      ((if os_path_exists fs1 out = true then os_remove fs1 out else fs1),
       [ProvEvent.gttsCall], false)
  | .noFile =>
    ((if os_path_exists fs out = true then os_remove fs out else fs),
     [ProvEvent.gttsCall], false)
  | .raised _ =>
    ((if os_path_exists fs out = true then os_remove fs out else fs),
     [ProvEvent.gttsCall], false)

/-! ### pyttsx3 adapter (tts_service.py lines 615-654) -/

/-- Translation of `_pyttsx3_tts`: run the library save, then succeed when the
output file exists (no size validation); on a raised exception remove any
file at the output path and fail. -/
def pyttsx3_tts (p : TtsLibResult) (fs : FS) (out : String) : FS × List ProvEvent × Bool :=
  match p with
  | .wrote size =>
    let fs1 := fsSet fs out (some size)
    if os_path_exists fs1 out = true then (fs1, [ProvEvent.pyttsxCall], true)
    else (fs1, [ProvEvent.pyttsxCall], false)
  | .noFile =>
    if os_path_exists fs out = true then (fs, [ProvEvent.pyttsxCall], true)
    else (fs, [ProvEvent.pyttsxCall], false)
  | .raised _ =>
    ((if os_path_exists fs out = true then os_remove fs out else fs),
     [ProvEvent.pyttsxCall], false)

/-! ### Orchestrator (tts_service.py lines 662-858)

`generate_voice_async` is translated step by step, mirroring the STEP
comments of the source.  The diagnostic `details` dictionary of `TTSError` is
not modelled (no claim concerns it). -/

/-- Translation of the `TTSError` dataclass (lines 22-41). -/
structure TTSError where
  success : Bool := false
  error : String := ""
  error_type : String := ""
  attempted_voices : List String := []
  attempted_providers : List String := []
deriving DecidableEq

/-- Result of one `generate_voice_async` run: the returned pair together with
the final filesystem and the event trace. -/
structure AsyncResult where
  audio_path : Option String
  tts_error : Option TTSError
  fs : FS
  events : List ProvEvent

/-- External behaviours injected into one synthesis request: the Edge TTS
save outcome per attempt number, the `ELEVENLABS_API_KEY` environment value,
and the outcomes of the ElevenLabs, gTTS and pyttsx3 calls. -/
structure Providers where
  edge : Nat → EdgeSaveResult
  eleven_key : Option String
  eleven : ElevenHttpResult
  gtts : TtsLibResult
  pyttsx3 : TtsLibResult

/-- Caching of a successful provider result (lines 763-766, 789-792,
813-816): `os.replace(output_path, cache_path)` followed immediately by
`os.replace(cache_path, output_path)`, then return the output path. -/
def cache_and_return (fs : FS) (out cache_path : String) (events : List ProvEvent) :
    AsyncResult :=
  let fs1 := os_replace fs out cache_path
  let fs2 := os_replace fs1 cache_path out
  { audio_path := some out, tts_error := none, fs := fs2, events := events }

/-- Terminal failure of the orchestrator (lines 837-858): remove any file at
the output path and return the structured `ALL_PROVIDERS_FAILED` error with
the attempted providers and the selected voice. -/
def gva_fail (selected_voice out : String) (fs : FS) (events : List ProvEvent) :
    AsyncResult :=
  let fs1 := if os_path_exists fs out = true then os_remove fs out else fs
  { audio_path := none,
    tts_error := some
      { error := "All TTS providers exhausted after " ++
          toString (attemptedNames events).length ++ " attempts",
        error_type := "ALL_PROVIDERS_FAILED",
        attempted_voices := [selected_voice],
        attempted_providers := attemptedNames events },
    fs := fs1, events := events }

/-- STEP 6 (lines 822-835): try pyttsx3; on success (existence only) return
the output path without caching; otherwise fail. -/
def gva_step6 (p : Providers) (selected_voice out : String) (fs : FS)
    (events : List ProvEvent) : AsyncResult :=
  let r := pyttsx3_tts p.pyttsx3 fs out
  let evs := events ++ ProvEvent.attempted "pyttsx3" :: r.2.1
  if r.2.2 = true ∧ os_path_exists r.1 out = true then
    { audio_path := some out, tts_error := none, fs := r.1, events := evs }
  else gva_fail selected_voice out r.1 evs

/-- STEP 5 (lines 801-820): try gTTS; on a validated success cache and
return; otherwise remove any output file and continue with pyttsx3. -/
def gva_step5 (p : Providers) (selected_voice out cache_path : String) (fs : FS)
    (events : List ProvEvent) : AsyncResult :=
  let r := gtts_tts p.gtts fs out
  let evs := events ++ ProvEvent.attempted "gTTS" :: r.2.1
  if r.2.2 = true ∧ os_path_exists r.1 out = true ∧ 1000 < os_path_getsize r.1 out then
    cache_and_return r.1 out cache_path evs
  else
    let fs1 := if os_path_exists r.1 out = true then os_remove r.1 out else r.1
    gva_step6 p selected_voice out fs1 evs

/-- STEP 4 (lines 775-799): try ElevenLabs (appended to the attempted list
before the adapter runs); on a validated success cache and return; otherwise
remove any output file and continue with gTTS. -/
def gva_step4 (p : Providers) (selected_voice out cache_path : String) (fs : FS)
    (events : List ProvEvent) : AsyncResult :=
  let r := elevenlabs_tts p.eleven_key p.eleven fs out
  let evs := events ++ ProvEvent.attempted "ElevenLabs" :: r.2.1
  if r.2.2 = true ∧ os_path_exists r.1 out = true ∧ 1000 < os_path_getsize r.1 out then
    cache_and_return r.1 out cache_path evs
  else
    let fs1 := if os_path_exists r.1 out = true then os_remove r.1 out else r.1
    gva_step5 p selected_voice out cache_path fs1 evs

/-- STEP 3 (lines 745-773): try Edge TTS with three attempts; on a validated
success cache and return; otherwise remove any output file and continue with
ElevenLabs. -/
def gva_step3 (p : Providers) (selected_voice out cache_path : String) (fs : FS)
    (events : List ProvEvent) : AsyncResult :=
  let r := edge_tts_with_smart_retry p.edge out 3 fs
  let evs := events ++ ProvEvent.attempted "Edge TTS" :: r.2.1
  if r.2.2 = true ∧ os_path_exists r.1 out = true ∧ 1000 < os_path_getsize r.1 out then
    cache_and_return r.1 out cache_path evs
  else
    let fs1 := if os_path_exists r.1 out = true then os_remove r.1 out else r.1
    gva_step4 p selected_voice out cache_path fs1 evs

/-- Translation of `generate_voice_async` (lines 662-858): validate the
input, preprocess the text, short-circuit on a cache hit (existence test
only; on a hit the cached file is moved onto the output path when the paths
differ), then run the provider chain. -/
def generate_voice_async (p : Providers) (fs0 : FS) (text : String)
    (output_path : Option String) (voice : Option String) : AsyncResult :=
  let out := output_path.getD DEFAULT_OUTPUT_PATH
  if text = "" then
    { audio_path := none,
      tts_error := some
        { error := "Invalid text input", error_type := "INPUT_VALIDATION_ERROR" },
      fs := fs0, events := [] }
  else
    let processed := String.mk (preprocess_text text.data MAX_TEXT_LENGTH)
    if processed = "" then
      { audio_path := none,
        tts_error := some
          { error := "Text preprocessing failed or result is empty",
            error_type := "TEXT_PREPROCESSING_ERROR" },
        fs := fs0, events := [] }
    else
      let cache_path := get_cache_path processed
      if os_path_exists fs0 cache_path = true then
        let fs1 := if cache_path = out then fs0 else os_replace fs0 cache_path out
        { audio_path := some out, tts_error := none, fs := fs1, events := [] }
      else
        let selected_voice := get_best_voice voice
        gva_step3 p selected_voice out cache_path fs0 []

/-- The dictionary returned by the synchronous wrapper `generate_voice`
(lines 891-990); absent keys are `none`. -/
structure VoiceResult where
  success : Bool
  path : Option String
  error : Option String
  error_type : Option String
  attempted_providers : List String
  attempted_voices : List String
deriving DecidableEq

/-- Result of one `generate_voice` call: the returned dictionary together
with the final filesystem and event trace. -/
structure SyncResult where
  result : VoiceResult
  fs : FS
  events : List ProvEvent

/-- Translation of `generate_voice` (lines 891-990): run the async
orchestrator under the module lock; on success return a dictionary with the
path and empty attempted lists; on failure return the error object's
dictionary (which carries no path key). -/
def generate_voice (p : Providers) (fs0 : FS) (text : String)
    (output_path : Option String) (voice : Option String) : SyncResult :=
  let r := generate_voice_async p fs0 text output_path voice
  match r.audio_path with
  | some path =>
    { result :=
        { success := true, path := some path, error := none, error_type := none,
          attempted_providers := [], attempted_voices := [] },
      fs := r.fs, events := r.events }
  | none =>
    match r.tts_error with
    | some e =>
      { result :=
          { success := false, path := none, error := some e.error,
            error_type := some e.error_type,
            attempted_providers := e.attempted_providers,
            attempted_voices := e.attempted_voices },
        fs := r.fs, events := r.events }
    | none =>
      { result :=
          { success := false, path := none, error := some "Unknown TTS error",
            error_type := some "UNKNOWN_ERROR",
            attempted_providers := [], attempted_voices := [] },
        fs := r.fs, events := r.events }

/-! ### Concurrency guard (tts_service.py lines 85-105, 452-459, 939-949)

Which mutual-exclusion lock guards the Edge TTS section of a call.  The
synchronous entry point `generate_voice` holds the module-level
`EDGE_TTS_LOCK` for the whole call.  The asynchronous entry point
`generate_voice_async` reaches `_edge_tts_with_smart_retry`, which constructs
a fresh `asyncio.Lock()` for that one invocation (line 456); the module-level
`_ASYNC_EDGE_TTS_LOCK` prepared by `_get_async_lock` (lines 93-105) is never
used.  Two in-flight calls are serialized exactly when their Edge TTS
sections are guarded by one and the same lock; with different locks an
interleaving in which both sections overlap is possible. -/

inductive TTSEntry where
  | generate_voice
  | generate_voice_async
deriving DecidableEq

inductive GuardLock where
  | edge_tts_lock
  | per_call_async_lock (callId : Nat)
deriving DecidableEq

/-- The lock guarding the Edge TTS section of call number `callId` entering
through `entry`. -/
def primary_guard : TTSEntry → Nat → GuardLock
  | .generate_voice, _ => .edge_tts_lock
  | .generate_voice_async, callId => .per_call_async_lock callId

/-- Two distinct concurrent calls can have overlapping in-flight Edge TTS
sections iff no common lock guards both sections. -/
def can_overlap (e1 : TTSEntry) (c1 : Nat) (e2 : TTSEntry) (c2 : Nat) : Bool :=
  primary_guard e1 c1 ≠ primary_guard e2 c2

/-! ### Auxiliary predicates for the preprocessing claims -/

/-- No two adjacent characters are both spaces. -/
def noTwoSpaces : List Char → Bool
  | c1 :: c2 :: rest => !(c1 = ' ' && c2 = ' ') && noTwoSpaces (c2 :: rest)
  | _ => true

/-- An input already in preprocessed shape: every character is ASCII and is
either the space character or not whitespace at all, runs of spaces have
length one, and the text neither begins nor ends with a space. -/
def cleanText (l : List Char) : Prop :=
  (∀ c ∈ l, isAsciiChar c = true ∧ (c = ' ' ∨ pyIsSpace c = false)) ∧
  noTwoSpaces l = true ∧ l.head? ≠ some ' ' ∧ l.getLast? ≠ some ' '

instance (l : List Char) : Decidable (cleanText l) := by
  unfold cleanText
  infer_instance

/-! ### Concrete scenario fixtures used by the end-to-end claims -/

/-- Input text of end-to-end scenario A of the specification. -/
def hungary : String := "Hungary blocks EU sanctions."

/-- The processed text of the scenario input. -/
def hungaryProcessed : String := String.mk (preprocess_text hungary.data MAX_TEXT_LENGTH)

/-- Behaviours: the primary provider succeeds on every attempt with a
2000-byte file; the secondary is unconfigured; the free and offline
providers never produce a file. -/
def provOk : Providers :=
  { edge := fun _ => EdgeSaveResult.wrote 2000, eleven_key := none,
    eleven := ElevenHttpResult.raised "unused", gtts := TtsLibResult.noFile,
    pyttsx3 := TtsLibResult.noFile }

/-- Behaviours of end-to-end scenario C: the primary always fails with a
"no audio received" error (non-retryable), the secondary is unconfigured and
the tertiary succeeds with a 2000-byte file. -/
def provC3 : Providers :=
  { edge := fun _ => EdgeSaveResult.raised "NoAudioReceived", eleven_key := none,
    eleven := ElevenHttpResult.raised "unused", gtts := TtsLibResult.wrote 2000,
    pyttsx3 := TtsLibResult.noFile }

/-- Behaviours for the retry-bound scenario: the primary always raises a
retryable error, the secondary is configured and succeeds. -/
def provRetry : Providers :=
  { edge := fun _ => EdgeSaveResult.raised "503 Service Unavailable",
    eleven_key := some "key", eleven := ElevenHttpResult.response 200 2000,
    gtts := TtsLibResult.noFile, pyttsx3 := TtsLibResult.noFile }

/-- Filesystem holding a single 5-byte (sub-floor) file at the cache path of
the scenario text. -/
def fsSmallCache : FS :=
  fun q => if q = get_cache_path hungaryProcessed then some 5 else none

/-- Behaviours for the immediate-fallthrough scenario: the primary always
raises a non-retryable error, the secondary is configured and succeeds. -/
def provNonRetry : Providers :=
  { edge := fun _ => EdgeSaveResult.raised "NoAudioReceived",
    eleven_key := some "key", eleven := ElevenHttpResult.response 200 2000,
    gtts := TtsLibResult.noFile, pyttsx3 := TtsLibResult.noFile }

/-! ### Helper lemmas: adjacent spaces -/

theorem nts_tail {c : Char} {l : List Char} (h : noTwoSpaces (c :: l) = true) :
    noTwoSpaces l = true := by
  cases l with
  | nil => rfl
  | cons c2 r =>
    simp only [noTwoSpaces, Bool.and_eq_true] at h
    exact h.2

theorem nts_cons_cons {c1 c2 : Char} {l : List Char} :
    noTwoSpaces (c1 :: c2 :: l) = true ↔
      ¬(c1 = ' ' ∧ c2 = ' ') ∧ noTwoSpaces (c2 :: l) = true := by
  simp [noTwoSpaces]
  tauto

theorem nts_pair {l : List Char} (h : noTwoSpaces l = true) :
    ∀ j : Nat, l[j]? = some ' ' → l[j + 1]? ≠ some ' ' := by
  induction l with
  | nil => intro j hj; simp at hj
  | cons c rest ih =>
    intro j hj hj1
    cases rest with
    | nil =>
      cases j with
      | zero => simp at hj1
      | succ m => simp at hj
    | cons c2 r =>
      rcases nts_cons_cons.mp h with ⟨h1, h2⟩
      cases j with
      | zero =>
        simp only [List.getElem?_cons_zero, Option.some_inj] at hj
        simp only [List.getElem?_cons_succ, List.getElem?_cons_zero, Option.some_inj] at hj1
        exact h1 ⟨hj, hj1⟩
      | succ m =>
        simp only [List.getElem?_cons_succ] at hj hj1
        exact ih h2 m hj (by simpa using hj1)

theorem nts_append {a b : List Char} :
    noTwoSpaces (a ++ b) = true ↔
      noTwoSpaces a = true ∧ noTwoSpaces b = true ∧
        ¬(a.getLast? = some ' ' ∧ b.head? = some ' ') := by
  induction a with
  | nil => simp [noTwoSpaces]
  | cons x a' ih =>
    cases a' with
    | nil =>
      cases b with
      | nil => simp [noTwoSpaces]
      | cons y b' =>
        simp only [List.cons_append, List.nil_append, nts_cons_cons]
        simp [noTwoSpaces]
        tauto
    | cons x2 a'' =>
      simp only [List.cons_append, nts_cons_cons] at *
      rw [ih]
      simp [List.getLast?_cons_cons]
      tauto

theorem nts_take {l : List Char} (h : noTwoSpaces l = true) (n : Nat) :
    noTwoSpaces (l.take n) = true := by
  induction l generalizing n with
  | nil => simp [noTwoSpaces]
  | cons c rest ih =>
    cases n with
    | zero => rfl
    | succ m =>
      cases rest with
      | nil => simp [List.take_succ_cons, List.take_nil, noTwoSpaces]
      | cons c2 r =>
        rcases nts_cons_cons.mp h with ⟨h1, h2⟩
        cases m with
        | zero => simp [List.take_succ_cons, List.take_zero, noTwoSpaces]
        | succ k =>
          simp only [List.take_succ_cons]
          exact nts_cons_cons.mpr
            ⟨h1, by simpa [List.take_succ_cons] using ih h2 (k + 1)⟩

theorem nts_dropWhile {l : List Char} (p : Char → Bool)
    (h : noTwoSpaces l = true) : noTwoSpaces (l.dropWhile p) = true := by
  rcases List.dropWhile_suffix p (l := l) with ⟨t, ht⟩
  rw [← ht] at h
  exact (nts_append.mp h).2.1

theorem nts_reverse {l : List Char} (h : noTwoSpaces l = true) :
    noTwoSpaces l.reverse = true := by
  induction l with
  | nil => rfl
  | cons c rest ih =>
    simp only [List.reverse_cons]
    refine nts_append.mpr ⟨ih (nts_tail h), rfl, ?_⟩
    rintro ⟨hl, hh⟩
    rw [List.getLast?_reverse] at hl
    cases rest with
    | nil => simp at hl
    | cons c2 r =>
      simp only [List.head?_cons, Option.some_inj] at hl hh
      exact (nts_cons_cons.mp h).1 ⟨hh, hl⟩

theorem nts_pstrip {l : List Char} (h : noTwoSpaces l = true) :
    noTwoSpaces (pstrip l) = true := by
  unfold pstrip
  exact nts_reverse (nts_dropWhile _ (nts_reverse (nts_dropWhile _ h)))

/-! ### Helper lemmas: dropWhile and pstrip -/

theorem dropWhile_head_false {p : Char → Bool} {l t : List Char} {c : Char}
    (h : l.dropWhile p = c :: t) : p c = false := by
  induction l with
  | nil => simp at h
  | cons x xs ih =>
    rw [List.dropWhile_cons] at h
    by_cases hx : p x = true
    · exact ih (by simpa [hx] using h)
    · simp only [hx] at h
      simp only [Bool.false_eq_true, if_false, List.cons.injEq] at h
      rw [← h.1]
      exact Bool.eq_false_iff.mpr hx

theorem dropWhile_id_of_head {p : Char → Bool} {l : List Char}
    (h : ∀ c, l.head? = some c → p c = false) : l.dropWhile p = l := by
  cases l with
  | nil => rfl
  | cons c cs => simp [List.dropWhile_cons, h c rfl]

theorem pstrip_id {l : List Char}
    (hh : ∀ c, l.head? = some c → pyIsSpace c = false)
    (hl : ∀ c, l.getLast? = some c → pyIsSpace c = false) : pstrip l = l := by
  unfold pstrip
  rw [dropWhile_id_of_head hh]
  rw [dropWhile_id_of_head (by simpa [List.head?_reverse] using hl)]
  exact l.reverse_reverse

theorem pstrip_subset {l : List Char} : ∀ c ∈ pstrip l, c ∈ l := by
  intro c hc
  unfold pstrip at hc
  rw [List.mem_reverse] at hc
  have h1 := (List.dropWhile_suffix (l := (l.dropWhile pyIsSpace).reverse) pyIsSpace).sublist.subset hc
  rw [List.mem_reverse] at h1
  exact (List.dropWhile_suffix (l := l) pyIsSpace).sublist.subset h1

theorem pstrip_length_le (l : List Char) : (pstrip l).length ≤ l.length := by
  unfold pstrip
  calc ((l.dropWhile pyIsSpace).reverse.dropWhile pyIsSpace).reverse.length
      = ((l.dropWhile pyIsSpace).reverse.dropWhile pyIsSpace).length := List.length_reverse _
    _ ≤ (l.dropWhile pyIsSpace).reverse.length :=
        (List.dropWhile_suffix pyIsSpace).length_le
    _ = (l.dropWhile pyIsSpace).length := List.length_reverse _
    _ ≤ l.length := (List.dropWhile_suffix pyIsSpace).length_le

theorem pstrip_getLast_not_space {l : List Char} {c : Char}
    (h : (pstrip l).getLast? = some c) : pyIsSpace c = false := by
  unfold pstrip at h
  rw [List.getLast?_reverse] at h
  rcases hd : (l.dropWhile pyIsSpace).reverse.dropWhile pyIsSpace with _ | ⟨x, t⟩
  · rw [hd] at h; simp at h
  · rw [hd] at h
    simp only [List.head?_cons, Option.some_inj] at h
    rw [← h]
    exact dropWhile_head_false hd

theorem pstrip_head_not_space {l : List Char} {c : Char}
    (h : (pstrip l).head? = some c) : pyIsSpace c = false := by
  rcases (List.dropWhile_suffix (l := (l.dropWhile pyIsSpace).reverse) pyIsSpace) with ⟨t, ht⟩
  have hps : pstrip l ++ t.reverse = l.dropWhile pyIsSpace := by
    have := congrArg List.reverse ht
    simpa [pstrip, List.reverse_append] using this
  rcases hp : pstrip l with _ | ⟨x, r⟩
  · rw [hp] at h; simp at h
  · rw [hp] at h
    simp only [List.head?_cons, Option.some_inj] at h
    have : l.dropWhile pyIsSpace = x :: (r ++ t.reverse) := by
      rw [← hps, hp]; simp
    rw [← h]
    exact dropWhile_head_false this

/-! ### Helper lemmas: subRuns -/

theorem subRuns_mem {p : Char → Bool} {l : List Char} :
    ∀ c ∈ subRuns p l, c = ' ' ∨ (c ∈ l ∧ p c = false) := by
  induction l with
  | nil => intro c hc; rw [subRuns] at hc; simp at hc
  | cons c cs ih =>
    intro a ha
    cases cs with
    | nil =>
      rw [subRuns] at ha
      by_cases hp : p c = true
      · rw [if_pos hp] at ha
        simp at ha
        exact Or.inl ha
      · rw [if_neg hp] at ha
        rcases List.mem_cons.mp ha with h | h
        · subst h
          exact Or.inr ⟨List.mem_cons_self _ _, Bool.eq_false_iff.mpr hp⟩
        · rw [subRuns] at h; simp at h
    | cons c2 cs' =>
      rw [subRuns] at ha
      by_cases hp : p c = true
      · rw [if_pos hp] at ha
        by_cases hp2 : p c2 = true
        · rw [if_pos hp2] at ha
          rcases ih a ha with h | ⟨hm, hpa⟩
          · exact Or.inl h
          · exact Or.inr ⟨List.mem_cons_of_mem _ hm, hpa⟩
        · rw [if_neg hp2] at ha
          rcases List.mem_cons.mp ha with h | h
          · exact Or.inl h
          · rcases ih a h with h' | ⟨hm, hpa⟩
            · exact Or.inl h'
            · exact Or.inr ⟨List.mem_cons_of_mem _ hm, hpa⟩
      · rw [if_neg hp] at ha
        rcases List.mem_cons.mp ha with h | h
        · subst h
          exact Or.inr ⟨List.mem_cons_self _ _, Bool.eq_false_iff.mpr hp⟩
        · rcases ih a h with h' | ⟨hm, hpa⟩
          · exact Or.inl h'
          · exact Or.inr ⟨List.mem_cons_of_mem _ hm, hpa⟩

theorem subRuns_id_of_none {p : Char → Bool} {l : List Char}
    (h : ∀ c ∈ l, p c = false) : subRuns p l = l := by
  induction l with
  | nil => rw [subRuns]
  | cons c cs ih =>
    have hc : ¬(p c = true) := by simp [h c (List.mem_cons_self _ _)]
    have ihcs := ih fun a ha => h a (List.mem_cons_of_mem _ ha)
    cases cs with
    | nil => rw [subRuns, if_neg hc, ihcs]
    | cons c2 cs' => rw [subRuns, if_neg hc, ihcs]

theorem subRuns_space_id_of_nts {l : List Char}
    (h : noTwoSpaces l = true) : subRuns (fun c => c = ' ') l = l := by
  induction l with
  | nil => rw [subRuns]
  | cons c cs ih =>
    cases cs with
    | nil =>
      rw [subRuns]
      by_cases hc : c = ' '
      · rw [if_pos (by simp [hc]), hc]
      · rw [if_neg (by simp [hc]), subRuns]
    | cons c2 r =>
      by_cases hc : c = ' '
      · have h2 : ¬(c2 = ' ') := fun h2 => (nts_cons_cons.mp h).1 ⟨hc, h2⟩
        rw [subRuns, if_pos (by simp [hc]), if_neg (by simp [h2]), hc,
          ih (nts_tail h)]
      · rw [subRuns, if_neg (by simp [hc]), ih (nts_tail h)]

theorem nts_cons_of_head_ne {c : Char} {out : List Char} (hc : ¬(c = ' '))
    (h : noTwoSpaces out = true) : noTwoSpaces (c :: out) = true := by
  cases out with
  | nil => rfl
  | cons x t => exact nts_cons_cons.mpr ⟨fun hp => hc hp.1, h⟩

theorem nts_subRuns_space (l : List Char) :
    noTwoSpaces (subRuns (fun c => c = ' ') l) = true := by
  induction l with
  | nil => rw [subRuns]; rfl
  | cons c cs ih =>
    cases cs with
    | nil =>
      rw [subRuns]
      by_cases hc : c = ' '
      · rw [if_pos (by simp [hc])]; rfl
      · rw [if_neg (by simp [hc]), subRuns]; rfl
    | cons c2 r =>
      by_cases hc : c = ' '
      · rw [subRuns, if_pos (by simp [hc])]
        by_cases h2 : c2 = ' '
        · rw [if_pos (by simp [h2])]
          exact ih
        · rw [if_neg (by simp [h2])]
          cases r with
          | nil =>
            rw [subRuns, if_neg (by simp [h2])] at ih ⊢
            exact nts_cons_cons.mpr ⟨fun hp => h2 hp.2, ih⟩
          | cons c3 r' =>
            rw [subRuns, if_neg (by simp [h2])] at ih ⊢
            exact nts_cons_cons.mpr ⟨fun hp => h2 hp.2, ih⟩
      · rw [subRuns, if_neg (by simp [hc])]
        exact nts_cons_of_head_ne hc ih

/-! ### Helper lemmas: rfind_space -/

theorem rfind_space_ge_neg_one (l : List Char) : -1 ≤ rfind_space l := by
  induction l with
  | nil => simp [rfind_space]
  | cons c cs ih =>
    rw [rfind_space]
    split
    · omega
    · split <;> omega

theorem rfind_space_lt_length (l : List Char) : rfind_space l < l.length := by
  induction l with
  | nil => simp [rfind_space]
  | cons c cs ih =>
    rw [rfind_space]
    simp only [List.length_cons]
    split
    · push_cast; omega
    · split <;> (push_cast; omega)

theorem rfind_space_getElem {l : List Char} (h : 0 ≤ rfind_space l) :
    l[(rfind_space l).toNat]? = some ' ' := by
  induction l with
  | nil => simp [rfind_space] at h
  | cons c cs ih =>
    rw [rfind_space] at h ⊢
    by_cases hr : 0 ≤ rfind_space cs
    · rw [if_pos hr] at h ⊢
      have : ((rfind_space cs) + 1).toNat = (rfind_space cs).toNat + 1 := by omega
      rw [this, List.getElem?_cons_succ]
      exact ih hr
    · rw [if_neg hr] at h ⊢
      by_cases hc : c = ' '
      · simp [hc]
      · rw [if_neg hc] at h; omega

theorem head_take_pos {l : List Char} {n : Nat} (h : 0 < n) :
    (l.take n).head? = l.head? := by
  cases l with
  | nil => simp
  | cons c cs =>
    cases n with
    | zero => omega
    | succ m => simp [List.take_succ_cons]

theorem rfind_space_maximal {l : List Char} {i : Nat} (h : l[i]? = some ' ') :
    (i : Int) ≤ rfind_space l := by
  induction l generalizing i with
  | nil => simp at h
  | cons c cs ih =>
    rw [rfind_space]
    cases i with
    | zero =>
      simp only [List.getElem?_cons_zero, Option.some_inj] at h
      subst h
      split <;> first | omega | simp_all
    | succ m =>
      simp only [List.getElem?_cons_succ] at h
      have hm := ih h
      have h0 : 0 ≤ rfind_space cs := le_trans (by omega) hm
      rw [if_pos h0]
      push_cast
      omega

/-! ### Helper lemmas: truncation, character classes, preprocess shape -/

theorem nrt_imp_pyws {c : Char} (h : isNRT c = true) : pyIsSpace c = true := by
  rcases Bool.or_eq_true_iff.mp h with h1 | h2
  · rcases Bool.or_eq_true_iff.mp h1 with ha | hb
    · rw [show c = '\n' by simpa using ha]; rfl
    · rw [show c = '\r' by simpa using hb]; rfl
  · rw [show c = '\t' by simpa using h2]; rfl

theorem truncate_subset {t : List Char} {m : Nat} :
    ∀ c ∈ truncate_step t m, c ∈ t := by
  intro c hc
  simp only [truncate_step] at hc
  split_ifs at hc
  · exact List.take_subset _ _ (List.take_subset _ _ hc)
  · exact List.take_subset _ _ hc
  · exact hc

theorem truncate_length_le {t : List Char} {m : Nat} :
    (truncate_step t m).length ≤ m := by
  simp only [truncate_step]
  split_ifs with h h2
  · simp only [List.length_take]
    omega
  · simp only [List.length_take]
    omega
  · exact Nat.le_of_not_lt h

theorem truncate_nts {t : List Char} {m : Nat} (h : noTwoSpaces t = true) :
    noTwoSpaces (truncate_step t m) = true := by
  simp only [truncate_step]
  split_ifs
  · exact nts_take (nts_take h m) _
  · exact nts_take h m
  · exact h

theorem collapse_chars {w : List Char} :
    ∀ c ∈ collapse_whitespace w,
      (isAsciiChar c || c = ' ') = true ∧ isNRT c = false ∨ c ∈ w := by
  intro c hc
  unfold collapse_whitespace at hc
  have h1 := pstrip_subset _ hc
  rcases subRuns_mem _ h1 with hsp | ⟨h2, _⟩
  · subst hsp; left; exact ⟨by decide, by decide⟩
  · rcases subRuns_mem _ h2 with hsp | ⟨h3, hnrtc⟩
    · subst hsp; left; exact ⟨by decide, by decide⟩
    · right; exact h3

theorem collapse_nrt_free {w : List Char} :
    ∀ c ∈ collapse_whitespace w, isNRT c = false := by
  intro c hc
  unfold collapse_whitespace at hc
  have h1 := pstrip_subset _ hc
  rcases subRuns_mem _ h1 with hsp | ⟨h2, _⟩
  · subst hsp; decide
  · rcases subRuns_mem _ h2 with hsp | ⟨_, hnrtc⟩
    · subst hsp; decide
    · exact hnrtc

theorem collapse_nts (w : List Char) :
    noTwoSpaces (collapse_whitespace w) = true :=
  nts_pstrip (nts_subRuns_space _)

/-- Fixed-point lemma: an input already in preprocessed shape of length at
most `maxL` is returned verbatim by `preprocess_text`. -/
theorem preprocess_fixed {l : List Char} {maxL : Nat}
    (hchars : ∀ c ∈ l, (isAsciiChar c || c = ' ') = true)
    (hnrt : ∀ c ∈ l, isNRT c = false)
    (hnts : noTwoSpaces l = true)
    (hhead : ∀ c, l.head? = some c → pyIsSpace c = false)
    (hlast : ∀ c, l.getLast? = some c → pyIsSpace c = false)
    (hlen : l.length ≤ maxL)
    (hne : l ≠ []) : preprocess_text l maxL = l := by
  have h1 : pstrip l = l := pstrip_id hhead hlast
  have h2 : remove_emojis_and_non_ascii l = l := List.filter_eq_self.mpr hchars
  have h5 : collapse_whitespace l = l := by
    rw [collapse_whitespace, subRuns_id_of_none hnrt, subRuns_space_id_of_nts hnts, h1]
  have h6 : truncate_step l maxL = l := by
    rw [truncate_step, if_neg (by omega)]
  have hmin : ¬(l.length < MIN_TEXT_LENGTH) := by
    have : 0 < l.length := List.length_pos.mpr hne
    simp only [MIN_TEXT_LENGTH]
    omega
  unfold preprocess_text
  rw [if_neg hne]
  simp only [h1, h2, h5, h6]
  rw [if_neg hne, if_neg hne, if_neg hmin, if_neg hne]

/-- Shape of every `preprocess_text` output: the empty rejection sentinel, or
the stripped truncation of the collapsed, ASCII-filtered, stripped input. -/
theorem preprocess_shape (l : List Char) (maxL : Nat) :
    preprocess_text l maxL = [] ∨
      (preprocess_text l maxL =
        pstrip (truncate_step
          (collapse_whitespace (remove_emojis_and_non_ascii (pstrip l))) maxL) ∧
       preprocess_text l maxL ≠ []) := by
  by_cases h0 : l = []
  · left; simp [preprocess_text, h0]
  by_cases h1 : pstrip l = []
  · left; simp [preprocess_text, h0, h1]
  by_cases h2 : collapse_whitespace (remove_emojis_and_non_ascii (pstrip l)) = []
  · left; simp [preprocess_text, h0, h1, h2]
  by_cases h3 :
      (collapse_whitespace (remove_emojis_and_non_ascii (pstrip l))).length <
        MIN_TEXT_LENGTH
  · left; simp [preprocess_text, h0, h1, h2, h3]
  by_cases h4 : pstrip (truncate_step
      (collapse_whitespace (remove_emojis_and_non_ascii (pstrip l))) maxL) = []
  · left; simp [preprocess_text, h0, h1, h2, h3, h4]
  · right
    constructor
    · simp [preprocess_text, h0, h1, h2, h3, h4]
    · simp [preprocess_text, h0, h1, h2, h3, h4]

/-- Invariants of the non-empty `preprocess_text` output value. -/
theorem preprocess_value_invariants (l : List Char) (maxL : Nat) :
    (∀ c ∈ pstrip (truncate_step
        (collapse_whitespace (remove_emojis_and_non_ascii (pstrip l))) maxL),
      (isAsciiChar c || c = ' ') = true ∧ isNRT c = false) ∧
    noTwoSpaces (pstrip (truncate_step
        (collapse_whitespace (remove_emojis_and_non_ascii (pstrip l))) maxL)) = true ∧
    (∀ c, (pstrip (truncate_step
        (collapse_whitespace (remove_emojis_and_non_ascii (pstrip l))) maxL)).head? =
          some c → pyIsSpace c = false) ∧
    (∀ c, (pstrip (truncate_step
        (collapse_whitespace (remove_emojis_and_non_ascii (pstrip l))) maxL)).getLast? =
          some c → pyIsSpace c = false) ∧
    (pstrip (truncate_step
        (collapse_whitespace (remove_emojis_and_non_ascii (pstrip l))) maxL)).length ≤
      maxL := by
  refine ⟨?_, ?_, ?_, ?_, ?_⟩
  · intro c hc
    have h1 := truncate_subset _ (pstrip_subset _ hc)
    have h2 := collapse_chars _ h1
    rcases h2 with h | hmem
    · exact h
    · constructor
      · have := List.mem_filter.mp hmem
        simpa using this.2
      · exact collapse_nrt_free _ h1
  · exact nts_pstrip (truncate_nts (collapse_nts _))
  · intro c hc
    exact pstrip_head_not_space hc
  · intro c hc
    exact pstrip_getLast_not_space hc
  · exact le_trans (pstrip_length_le _) truncate_length_le

/-! ### Helper lemmas: cleanText -/

theorem clean_chars {l : List Char} (h : cleanText l) :
    ∀ c ∈ l, (isAsciiChar c || c = ' ') = true := by
  intro c hc
  simp [(h.1 c hc).1]

theorem clean_nrt {l : List Char} (h : cleanText l) : ∀ c ∈ l, isNRT c = false := by
  intro c hc
  rcases (h.1 c hc).2 with h' | h'
  · subst h'; decide
  · cases hn : isNRT c
    · rfl
    · rw [nrt_imp_pyws hn] at h'
      exact absurd h' (by simp)

theorem clean_head {l : List Char} (h : cleanText l) :
    ∀ c, l.head? = some c → pyIsSpace c = false := by
  intro c hc
  have hm : c ∈ l := List.mem_of_mem_head? (by simp [hc])
  rcases (h.1 c hm).2 with h' | h'
  · subst h'; exact absurd hc h.2.2.1
  · exact h'

theorem clean_last {l : List Char} (h : cleanText l) :
    ∀ c, l.getLast? = some c → pyIsSpace c = false := by
  intro c hc
  have hm : c ∈ l := List.mem_of_mem_getLast? (by simp [hc])
  rcases (h.1 c hm).2 with h' | h'
  · subst h'; exact absurd hc h.2.2.2
  · exact h'

/-! ### Claim C10 -/

/-- C10 (confirmed): text preprocessing is idempotent — for every input and
every length bound, `preprocess_text (preprocess_text x) = preprocess_text x`;
the output of preprocessing is a fixed point of the preprocessing function.
Instantiating `maxL` with `MAX_TEXT_LENGTH` gives the claim for the shipped
configuration. -/
theorem C10_preprocess_idempotent (l : List Char) (maxL : Nat) :
    preprocess_text (preprocess_text l maxL) maxL = preprocess_text l maxL := by
  rcases preprocess_shape l maxL with h | ⟨heq, hne⟩
  · rw [h]
    simp [preprocess_text]
  · obtain ⟨hchars, hnts, hhead, hlast, hlen⟩ := preprocess_value_invariants l maxL
    rw [heq] at hne ⊢
    exact preprocess_fixed (fun c hc => (hchars c hc).1) (fun c hc => (hchars c hc).2)
      hnts hhead hlast hlen hne

/-! ### Claim C9 -/

/-- C9 (confirmed): an already-clean input of exactly `maxL` characters is
preserved verbatim; a clean input longer than `maxL` is cut to at most `maxL`
characters, and when a space occurs in the last twenty percent of the
truncation window (`4 * maxL < 5 * i`), the cut lands exactly at the last
such space (the output is the prefix up to that space, splitting no word),
else the text is hard-truncated at `maxL`. -/
theorem C9_truncation_boundary (l : List Char) (maxL : Nat)
    (hclean : cleanText l) (hmax : 5 < maxL) :
    (l.length = maxL → preprocess_text l maxL = l) ∧
    (maxL < l.length →
      (preprocess_text l maxL).length ≤ maxL ∧
      ((∃ i, i < maxL ∧ l[i]? = some ' ' ∧ 4 * maxL < 5 * i) →
        ∃ i, i < maxL ∧ l[i]? = some ' ' ∧ 4 * maxL < 5 * i ∧
          preprocess_text l maxL = l.take i ∧
          ∀ j, i < j → j < maxL → l[j]? ≠ some ' ') ∧
      ((¬ ∃ i, i < maxL ∧ l[i]? = some ' ' ∧ 4 * maxL < 5 * i) →
        preprocess_text l maxL = l.take maxL)) := by
  constructor
  · intro hlen
    exact preprocess_fixed (clean_chars hclean) (clean_nrt hclean) hclean.2.1
      (clean_head hclean) (clean_last hclean) (le_of_eq hlen)
      (List.ne_nil_of_length_pos (by omega))
  · intro hgt
    have hne : l ≠ [] := List.ne_nil_of_length_pos (by omega)
    have hid1 : pstrip l = l := pstrip_id (clean_head hclean) (clean_last hclean)
    have hid2 : remove_emojis_and_non_ascii l = l :=
      List.filter_eq_self.mpr (clean_chars hclean)
    have hid3 : collapse_whitespace l = l := by
      rw [collapse_whitespace, subRuns_id_of_none (clean_nrt hclean),
        subRuns_space_id_of_nts hclean.2.1, hid1]
    have hmin : ¬(l.length < MIN_TEXT_LENGTH) := by
      have : 0 < l.length := List.length_pos.mpr hne
      simp only [MIN_TEXT_LENGTH]
      omega
    have hred : ∀ _hfin : pstrip (truncate_step l maxL) ≠ [],
        preprocess_text l maxL = pstrip (truncate_step l maxL) := by
      intro hfin
      unfold preprocess_text
      rw [if_neg hne]
      simp only [hid1, hid2, hid3]
      rw [if_neg hne, if_neg hne, if_neg hmin, if_neg hfin]
    have htt_len : (l.take maxL).length = maxL := by
      simp only [List.length_take]
      omega
    by_cases hsp : ∃ i, i < maxL ∧ l[i]? = some ' ' ∧ 4 * maxL < 5 * i
    · obtain ⟨i, hi, hispace, hifar⟩ := hsp
      have htti : (l.take maxL)[i]? = some ' ' := by
        rw [List.getElem?_take, if_pos hi]
        exact hispace
      have hmax_le : (i : Int) ≤ rfind_space (l.take maxL) := rfind_space_maximal htti
      have hifar' : (4 * maxL : Int) < 5 * (i : Int) := by exact_mod_cast hifar
      have hcond : 4 * (maxL : Int) < 5 * rfind_space (l.take maxL) := by
        have h0 : (0 : Int) ≤ (i : Int) := Int.ofNat_nonneg i
        omega
      have hls0 : 0 ≤ rfind_space (l.take maxL) := by
        have h0 : (0 : Int) ≤ (i : Int) := Int.ofNat_nonneg i
        omega
      have hlsiN : rfind_space (l.take maxL) = ((rfind_space (l.take maxL)).toNat : Int) := by
        omega
      have hiNlt : (rfind_space (l.take maxL)).toNat < maxL := by
        have hlt := rfind_space_lt_length (l.take maxL)
        rw [htt_len] at hlt
        omega
      have hiNspace_tt : (l.take maxL)[(rfind_space (l.take maxL)).toNat]? = some ' ' :=
        rfind_space_getElem hls0
      have hiNspace : l[(rfind_space (l.take maxL)).toNat]? = some ' ' := by
        rw [List.getElem?_take, if_pos hiNlt] at hiNspace_tt
        exact hiNspace_tt
      have hiNfar : 4 * maxL < 5 * (rfind_space (l.take maxL)).toNat := by
        omega
      have hiN1 : 1 ≤ (rfind_space (l.take maxL)).toNat := by omega
      have htrunc : truncate_step l maxL = l.take (rfind_space (l.take maxL)).toNat := by
        simp only [truncate_step]
        rw [if_pos hgt, if_pos hcond, List.take_take]
        congr 1
        omega
      have hhead2 : ∀ c, (l.take (rfind_space (l.take maxL)).toNat).head? = some c →
          pyIsSpace c = false := by
        intro c hc
        rw [head_take_pos (by omega)] at hc
        exact clean_head hclean c hc
      have hlast2 : ∀ c, (l.take (rfind_space (l.take maxL)).toNat).getLast? = some c →
          pyIsSpace c = false := by
        intro c hc
        rw [List.getLast?_eq_getElem?] at hc
        have hlen2 : (l.take (rfind_space (l.take maxL)).toNat).length =
            (rfind_space (l.take maxL)).toNat := by
          simp only [List.length_take]
          omega
        rw [hlen2, List.getElem?_take, if_pos (by omega)] at hc
        have hnsp : l[(rfind_space (l.take maxL)).toNat - 1]? ≠ some ' ' := by
          intro hsp'
          have hnx := nts_pair hclean.2.1 ((rfind_space (l.take maxL)).toNat - 1) hsp'
          rw [show (rfind_space (l.take maxL)).toNat - 1 + 1 =
            (rfind_space (l.take maxL)).toNat by omega] at hnx
          exact hnx hiNspace
        have hmem : c ∈ l := List.getElem?_mem hc
        rcases (hclean.1 c hmem).2 with h' | h'
        · subst h'; exact absurd hc hnsp
        · exact h'
      have hfinid : pstrip (l.take (rfind_space (l.take maxL)).toNat) =
          l.take (rfind_space (l.take maxL)).toNat := pstrip_id hhead2 hlast2
      have hfinne : l.take (rfind_space (l.take maxL)).toNat ≠ [] := by
        apply List.ne_nil_of_length_pos
        simp only [List.length_take]
        omega
      have hppv : preprocess_text l maxL = l.take (rfind_space (l.take maxL)).toNat := by
        rw [hred (by rw [htrunc, hfinid]; exact hfinne), htrunc, hfinid]
      refine ⟨?_, ?_, ?_⟩
      · rw [hppv]
        simp only [List.length_take]
        omega
      · intro _
        refine ⟨(rfind_space (l.take maxL)).toNat, hiNlt, hiNspace, hiNfar, hppv, ?_⟩
        intro j hij hjlt hjs
        have htj : (l.take maxL)[j]? = some ' ' := by
          rw [List.getElem?_take, if_pos hjlt]
          exact hjs
        have := rfind_space_maximal htj
        omega
      · intro hn
        exact absurd ⟨(rfind_space (l.take maxL)).toNat, hiNlt, hiNspace, hiNfar⟩ hn
    · have hcond' : ¬(4 * (maxL : Int) < 5 * rfind_space (l.take maxL)) := by
        intro hcond
        have hls0 : 0 ≤ rfind_space (l.take maxL) := by
          have h0 : (0 : Int) ≤ (maxL : Int) := Int.ofNat_nonneg maxL
          omega
        have hiNlt : (rfind_space (l.take maxL)).toNat < maxL := by
          have hlt := rfind_space_lt_length (l.take maxL)
          rw [htt_len] at hlt
          omega
        have hiNspace_tt : (l.take maxL)[(rfind_space (l.take maxL)).toNat]? = some ' ' :=
          rfind_space_getElem hls0
        have hiNspace : l[(rfind_space (l.take maxL)).toNat]? = some ' ' := by
          rw [List.getElem?_take, if_pos hiNlt] at hiNspace_tt
          exact hiNspace_tt
        exact hsp ⟨(rfind_space (l.take maxL)).toNat, hiNlt, hiNspace, by omega⟩
      have htrunc : truncate_step l maxL = l.take maxL := by
        simp only [truncate_step]
        rw [if_pos hgt, if_neg hcond']
      have hhead2 : ∀ c, (l.take maxL).head? = some c → pyIsSpace c = false := by
        intro c hc
        rw [head_take_pos (by omega)] at hc
        exact clean_head hclean c hc
      have hlast2 : ∀ c, (l.take maxL).getLast? = some c → pyIsSpace c = false := by
        intro c hc
        rw [List.getLast?_eq_getElem?, htt_len, List.getElem?_take, if_pos (by omega)] at hc
        have hnsp : l[maxL - 1]? ≠ some ' ' := by
          intro hsp'
          exact hsp ⟨maxL - 1, by omega, hsp', by omega⟩
        have hmem : c ∈ l := List.getElem?_mem hc
        rcases (hclean.1 c hmem).2 with h' | h'
        · subst h'; exact absurd hc hnsp
        · exact h'
      have hfinid : pstrip (l.take maxL) = l.take maxL := pstrip_id hhead2 hlast2
      have hfinne : l.take maxL ≠ [] := by
        apply List.ne_nil_of_length_pos
        rw [htt_len]
        omega
      have hppv : preprocess_text l maxL = l.take maxL := by
        rw [hred (by rw [htrunc, hfinid]; exact hfinne), htrunc, hfinid]
      refine ⟨?_, ?_, ?_⟩
      · rw [hppv, htt_len]
      · intro hex
        exact absurd hex hsp
      · intro _
        exact hppv

/-- Witness for C9: a clean 13-character input with its only space at index 9
under window 10 is cut exactly at that space, and a clean input of exactly the
window length is preserved verbatim. -/
theorem C9_truncation_boundary_witness :
    (∃ i, i < 10 ∧ ("abcdefghi klm".data)[i]? = some ' ' ∧ 4 * 10 < 5 * i ∧
      preprocess_text ("abcdefghi klm".data) 10 = ("abcdefghi klm".data).take i ∧
      ∀ j, i < j → j < 10 → ("abcdefghi klm".data)[j]? ≠ some ' ') ∧
    preprocess_text ("abcd efghi".data) 10 = "abcd efghi".data :=
  ⟨((C9_truncation_boundary ("abcdefghi klm".data) 10 (by decide) (by decide)).2
      (by decide)).2.1 ⟨9, by decide, by decide, by decide⟩,
   (C9_truncation_boundary ("abcd efghi".data) 10 (by decide) (by decide)).1 (by decide)⟩

/-! ### Claim C5 -/

set_option maxHeartbeats 1000000 in
/-- C5 (confirmed): the error classifier is a deterministic function of the
error's (lower-cased) string representation; every error indicating a
"no audio received" condition, HTTP 400, HTTP 404 or an encoding failure is
classified non-retryable, and — in the absence of those dominant
non-retryable markers — every error indicating HTTP 403, HTTP 503, a
connection timeout, or a connection refused/reset is classified retryable. -/
theorem C5_error_classifier (err : String) :
    (errContains (lowered err) "noaudioreceived" = true →
      is_retryable_error err = false) ∧
    (errContains (lowered err) "no audio received" = true →
      is_retryable_error err = false) ∧
    (errContains (lowered err) "400" = true → is_retryable_error err = false) ∧
    (errContains (lowered err) "404" = true → is_retryable_error err = false) ∧
    ((errContains (lowered err) "encode" = true ∨
      errContains (lowered err) "decode" = true ∨
      errContains (lowered err) "utf" = true) → is_retryable_error err = false) ∧
    ((errContains (lowered err) "noaudioreceived" = false ∧
      errContains (lowered err) "no audio received" = false ∧
      errContains (lowered err) "400" = false ∧
      errContains (lowered err) "bad request" = false ∧
      errContains (lowered err) "404" = false ∧
      errContains (lowered err) "not found" = false ∧
      errContains (lowered err) "encode" = false ∧
      errContains (lowered err) "decode" = false ∧
      errContains (lowered err) "utf" = false) →
      (errContains (lowered err) "403" = true → is_retryable_error err = true) ∧
      (errContains (lowered err) "503" = true → is_retryable_error err = true) ∧
      (errContains (lowered err) "timeout" = true → is_retryable_error err = true) ∧
      (errContains (lowered err) "connection" = true → is_retryable_error err = true) ∧
      (errContains (lowered err) "refused" = true → is_retryable_error err = true) ∧
      (errContains (lowered err) "reset" = true → is_retryable_error err = true)) := by
  refine ⟨?_, ?_, ?_, ?_, ?_, ?_⟩
  · intro h
    simp only [is_retryable_error]
    split_ifs <;> simp_all
  · intro h
    simp only [is_retryable_error]
    split_ifs <;> simp_all
  · intro h
    simp only [is_retryable_error]
    split_ifs <;> simp_all
  · intro h
    simp only [is_retryable_error]
    split_ifs <;> simp_all
  · intro h
    simp only [is_retryable_error]
    rcases h with h | h | h <;> (split_ifs <;> simp_all)
  · intro hclean
    obtain ⟨h1, h2, h3, h4, h5, h6, h7, h8, h9⟩ := hclean
    refine ⟨?_, ?_, ?_, ?_, ?_, ?_⟩ <;>
      (intro h
       simp only [is_retryable_error]
       split_ifs <;> simp_all)

/-- Witness for C5: the classifier evaluated on the error strings of the
repository's own test suite. -/
theorem C5_error_classifier_witness :
    is_retryable_error ("403 Forbidden") = true ∧
    is_retryable_error ("503 Service Unavailable") = true ∧
    is_retryable_error ("Connection timeout") = true ∧
    is_retryable_error ("Connection refused") = true ∧
    is_retryable_error ("NoAudioReceived") = false ∧
    is_retryable_error ("400 Bad Request") = false ∧
    is_retryable_error ("404 Not Found") = false ∧
    is_retryable_error ("UnicodeEncodeError") = false :=
  ⟨((C5_error_classifier ("403 Forbidden")).2.2.2.2.2 (by decide)).1 (by decide),
   ((C5_error_classifier ("503 Service Unavailable")).2.2.2.2.2 (by decide)).2.1 (by decide),
   ((C5_error_classifier ("Connection timeout")).2.2.2.2.2 (by decide)).2.2.1 (by decide),
   ((C5_error_classifier ("Connection refused")).2.2.2.2.2 (by decide)).2.2.2.2.1 (by decide),
   (C5_error_classifier ("NoAudioReceived")).1 (by decide),
   (C5_error_classifier ("400 Bad Request")).2.2.1 (by decide),
   (C5_error_classifier ("404 Not Found")).2.2.2.1 (by decide),
   (C5_error_classifier ("UnicodeEncodeError")).2.2.2.2.1 (Or.inl (by decide))⟩

/-! ### Helper lemmas: the retry loop -/

theorem edge_retry_step_raised {edge : Nat → EdgeSaveResult} {out : String} {fs : FS}
    {e : String} {a rem : Nat} (hsave : edge a = EdgeSaveResult.raised e)
    (hra : is_retryable_error e = true) (hpos : 0 < rem) :
    edge_retry_go edge out (Nat.succ rem) a fs =
      ((edge_retry_go edge out rem (a + 1) (do_edge_tts fs out (edge a)).1).1,
       ProvEvent.edgeCall a :: ProvEvent.classify e true ::
         ProvEvent.backoff (backoff_tenths a) ::
         (edge_retry_go edge out rem (a + 1) (do_edge_tts fs out (edge a)).1).2.1,
       (edge_retry_go edge out rem (a + 1) (do_edge_tts fs out (edge a)).1).2.2) := by
  rw [edge_retry_go, hsave]
  simp only [do_edge_tts, hra]
  simp [hpos]

theorem edge_retry_last_raised {edge : Nat → EdgeSaveResult} {out : String} {fs : FS}
    {e : String} {a : Nat} (hsave : edge a = EdgeSaveResult.raised e)
    (hra : is_retryable_error e = true) :
    edge_retry_go edge out 1 a fs =
      ((do_edge_tts fs out (edge a)).1,
       [ProvEvent.edgeCall a, ProvEvent.classify e true], false) := by
  rw [edge_retry_go, hsave]
  simp only [do_edge_tts, hra]
  simp

theorem edge_retry_nonretryable {edge : Nat → EdgeSaveResult} {out : String} {fs : FS}
    {e : String} {a rem : Nat} (hsave : edge a = EdgeSaveResult.raised e)
    (hra : is_retryable_error e = false) :
    edge_retry_go edge out (Nat.succ rem) a fs =
      ((do_edge_tts fs out (edge a)).1,
       [ProvEvent.edgeCall a, ProvEvent.classify e false], false) := by
  rw [edge_retry_go, hsave]
  simp only [do_edge_tts, hra]
  simp

theorem edge_retry_events_head (edge : Nat → EdgeSaveResult) (out : String) (fs : FS) :
    ∃ tail, (edge_retry_go edge out 3 1 fs).2.1 = ProvEvent.edgeCall 1 :: tail := by
  rw [edge_retry_go]
  rcases h : (do_edge_tts fs out (edge 1)).2 with err | u
  · simp only [h]
    split_ifs <;> exact ⟨_, rfl⟩
  · simp only [h]
    exact ⟨[], rfl⟩

/-! ### Claim C4 -/

/-- C4 (confirmed): with `MAX_ATTEMPTS_FOR_PROVIDER = 3` as passed by the
orchestrator, a primary provider that always raises retryable errors is
attempted exactly 3 times with non-decreasing backoff delays (2.1 s then
4.0 s, i.e. 21 then 40 tenths) before the loop reports failure and the
orchestrator falls through; a primary provider whose first failure is
non-retryable is abandoned after exactly one attempt, after which the
orchestrator invokes the next provider (shown on the concrete scenarios:
retryable failures give 3 Edge attempts then one ElevenLabs call,
a non-retryable failure gives 1 Edge attempt then one ElevenLabs call). -/
theorem C4_retry_policy :
    (∀ (edge : Nat → EdgeSaveResult) (out : String) (fs : FS),
      (∀ n, 1 ≤ n → n ≤ 3 →
        ∃ e, edge n = EdgeSaveResult.raised e ∧ is_retryable_error e = true) →
      edgeCalls (edge_tts_with_smart_retry edge out 3 fs).2.1 = 3 ∧
      (edge_tts_with_smart_retry edge out 3 fs).2.2 = false ∧
      backoffList (edge_tts_with_smart_retry edge out 3 fs).2.1 = [21, 40] ∧
      List.Chain' (fun a b => a ≤ b)
        (backoffList (edge_tts_with_smart_retry edge out 3 fs).2.1)) ∧
    (∀ (edge : Nat → EdgeSaveResult) (out : String) (fs : FS) (e : String),
      edge 1 = EdgeSaveResult.raised e → is_retryable_error e = false →
      edgeCalls (edge_tts_with_smart_retry edge out 3 fs).2.1 = 1 ∧
      (edge_tts_with_smart_retry edge out 3 fs).2.2 = false) ∧
    (edgeCalls (generate_voice_async provRetry emptyFS hungary none none).events = 3 ∧
     elevenCalls (generate_voice_async provRetry emptyFS hungary none none).events = 1 ∧
     edgeCalls (generate_voice_async provNonRetry emptyFS hungary none none).events = 1 ∧
     elevenCalls (generate_voice_async provNonRetry emptyFS hungary none none).events = 1) := by
  refine ⟨?_, ?_, ?_⟩
  · intro edge out fs hall
    obtain ⟨e1, he1, hr1⟩ := hall 1 (by omega) (by omega)
    obtain ⟨e2, he2, hr2⟩ := hall 2 (by omega) (by omega)
    obtain ⟨e3, he3, hr3⟩ := hall 3 (by omega) (by omega)
    rw [edge_tts_with_smart_retry,
      edge_retry_step_raised he1 hr1 (by omega),
      edge_retry_step_raised he2 hr2 (by omega),
      show (2 + 1 : Nat) = 3 from rfl,
      edge_retry_last_raised he3 hr3]
    refine ⟨?_, rfl, ?_, ?_⟩
    · simp [edgeCalls, isSynthEvent]
    · simp [backoffList, backoff_tenths]
    · simp [backoffList, backoff_tenths]
  · intro edge out fs e hsave hra
    rw [edge_tts_with_smart_retry,
      show (3 : Nat) = Nat.succ 2 from rfl, edge_retry_nonretryable hsave hra]
    exact ⟨by simp [edgeCalls], rfl⟩
  · refine ⟨?_, ?_, ?_, ?_⟩ <;> decide

/-- Witness for C4: the two quantified parts applied to the concrete
always-503 and immediately-NoAudioReceived providers. -/
theorem C4_retry_policy_witness :
    (edgeCalls (edge_tts_with_smart_retry
        (fun _ => EdgeSaveResult.raised "503 Service Unavailable")
        DEFAULT_OUTPUT_PATH 3 emptyFS).2.1 = 3 ∧
     (edge_tts_with_smart_retry
        (fun _ => EdgeSaveResult.raised "503 Service Unavailable")
        DEFAULT_OUTPUT_PATH 3 emptyFS).2.2 = false ∧
     backoffList (edge_tts_with_smart_retry
        (fun _ => EdgeSaveResult.raised "503 Service Unavailable")
        DEFAULT_OUTPUT_PATH 3 emptyFS).2.1 = [21, 40] ∧
     List.Chain' (fun a b => a ≤ b) (backoffList (edge_tts_with_smart_retry
        (fun _ => EdgeSaveResult.raised "503 Service Unavailable")
        DEFAULT_OUTPUT_PATH 3 emptyFS).2.1)) ∧
    (edgeCalls (edge_tts_with_smart_retry
        (fun _ => EdgeSaveResult.raised "NoAudioReceived")
        DEFAULT_OUTPUT_PATH 3 emptyFS).2.1 = 1 ∧
     (edge_tts_with_smart_retry
        (fun _ => EdgeSaveResult.raised "NoAudioReceived")
        DEFAULT_OUTPUT_PATH 3 emptyFS).2.2 = false) :=
  ⟨C4_retry_policy.1 (fun _ => EdgeSaveResult.raised "503 Service Unavailable")
      DEFAULT_OUTPUT_PATH emptyFS
      (fun n _ _ => ⟨"503 Service Unavailable", rfl, by decide⟩),
   C4_retry_policy.2.1 (fun _ => EdgeSaveResult.raised "NoAudioReceived")
      DEFAULT_OUTPUT_PATH emptyFS "NoAudioReceived" rfl (by decide)⟩

/-! ### Helper lemmas: orchestrator event traces -/

theorem gva_step6_events_shape (p : Providers) (v out : String) (fs : FS)
    (evs : List ProvEvent) :
    (gva_step6 p v out fs evs).events =
      evs ++ ProvEvent.attempted "pyttsx3" :: (pyttsx3_tts p.pyttsx3 fs out).2.1 := by
  simp only [gva_step6, gva_fail]
  split_ifs <;> rfl

theorem gva_step5_events_factor (p : Providers) (v out cp : String) (fs : FS)
    (evs : List ProvEvent) :
    (gva_step5 p v out cp fs evs).events = evs ++ (gva_step5 p v out cp fs []).events := by
  simp only [gva_step5, gva_step6, gva_fail, cache_and_return]
  split_ifs <;> simp

theorem gva_step4_events_factor (p : Providers) (v out cp : String) (fs : FS)
    (evs : List ProvEvent) :
    (gva_step4 p v out cp fs evs).events = evs ++ (gva_step4 p v out cp fs []).events := by
  simp only [gva_step4, gva_step5, gva_step6, gva_fail, cache_and_return]
  split_ifs <;> simp

theorem gva_step3_events_head (p : Providers) (v out cp : String) (fs : FS)
    (evs : List ProvEvent) :
    ∃ s, (gva_step3 p v out cp fs evs).events =
      evs ++ ProvEvent.attempted "Edge TTS" :: ProvEvent.edgeCall 1 :: s := by
  obtain ⟨t, ht⟩ := edge_retry_events_head p.edge out fs
  simp only [gva_step3, edge_tts_with_smart_retry, cache_and_return]
  split_ifs
  · exact ⟨t, by rw [ht]⟩
  · refine ⟨t ++ (gva_step4 p v out cp
      (os_remove (edge_retry_go p.edge out 3 1 fs).1 out) []).events, ?_⟩
    rw [gva_step4_events_factor, ht]
    simp
  · refine ⟨t ++ (gva_step4 p v out cp (edge_retry_go p.edge out 3 1 fs).1 []).events, ?_⟩
    rw [gva_step4_events_factor, ht]
    simp

theorem synthCalls_cons_append (a : List ProvEvent) (s : List ProvEvent) :
    1 ≤ synthCalls (a ++ ProvEvent.attempted "Edge TTS" :: ProvEvent.edgeCall 1 :: s) := by
  simp [synthCalls, List.filter_append, List.filter_cons, isSynthEvent]
  omega

/-! ### Helper lemmas: filesystem operations and adapters -/

theorem fsSet_self (fs : FS) (p : String) (v : Option Nat) : fsSet fs p v p = v := by
  simp [fsSet]

theorem os_exists_set_self (fs : FS) (p : String) (v : Option Nat) :
    os_path_exists (fsSet fs p v) p = v.isSome := by
  simp [os_path_exists, fsSet]

theorem os_getsize_set_self (fs : FS) (p : String) (v : Option Nat) :
    os_path_getsize (fsSet fs p v) p = v.getD 0 := by
  simp [os_path_getsize, fsSet]

theorem os_remove_self (fs : FS) (p : String) : os_remove fs p p = none := by
  simp [os_remove, fsSet]

theorem edge_ok_size (fs : FS) (out : String) (save : EdgeSaveResult)
    (hok : (do_edge_tts fs out save).2 = Except.ok ()) :
    ∃ sz, (do_edge_tts fs out save).1 out = some sz ∧ 1000 < sz := by
  cases save with
  | wrote size =>
    simp only [do_edge_tts, edge_verify, os_exists_set_self, os_getsize_set_self,
      Option.isSome_some, Option.getD_some, if_true] at hok ⊢
    split_ifs at hok ⊢ with h1
    exact ⟨size, by simp [fsSet], h1⟩
  | noFile =>
    simp only [do_edge_tts, edge_verify] at hok ⊢
    split_ifs at hok ⊢ with h1 h2
    simp only [os_path_exists, Option.isSome_iff_exists] at h1
    obtain ⟨x, hx⟩ := h1
    refine ⟨x, hx, ?_⟩
    simpa [os_path_getsize, hx] using h2
  | raised err => simp [do_edge_tts] at hok

theorem edge_err_clean (fs : FS) (out : String) (save : EdgeSaveResult) (e : String)
    (hnone : fs out = none) (herr : (do_edge_tts fs out save).2 = Except.error e) :
    (do_edge_tts fs out save).1 out = none := by
  cases save with
  | wrote size =>
    simp only [do_edge_tts, edge_verify, os_exists_set_self, os_getsize_set_self,
      Option.isSome_some, Option.getD_some, if_true] at herr ⊢
    split_ifs at herr ⊢ with h1
    simp [os_remove, fsSet]
  | noFile =>
    simp only [do_edge_tts, edge_verify] at herr ⊢
    split_ifs at herr ⊢ with h1 h2
    · simp [os_remove, fsSet]
    · exact hnone
  | raised err =>
    simp only [do_edge_tts]
    split_ifs
    · simp [os_remove, fsSet]
    · exact hnone

theorem gtts_ok_size (fs : FS) (out : String) (g : TtsLibResult)
    (hok : (gtts_tts g fs out).2.2 = true) :
    ∃ sz, (gtts_tts g fs out).1 out = some sz ∧ 1000 < sz := by
  cases g with
  | wrote size =>
    simp only [gtts_tts, os_exists_set_self, os_getsize_set_self, Option.isSome_some,
      Option.getD_some] at hok ⊢
    split_ifs at hok ⊢ with h1
    exact ⟨size, by simp [fsSet], h1.2⟩
  | noFile =>
    simp only [gtts_tts] at hok
    simp at hok
  | raised err =>
    simp only [gtts_tts] at hok
    simp at hok

theorem gtts_fail_clean (fs : FS) (out : String) (g : TtsLibResult)
    (hnone : fs out = none) (hfail : (gtts_tts g fs out).2.2 = false) :
    (gtts_tts g fs out).1 out = none := by
  cases g with
  | wrote size =>
    simp only [gtts_tts, os_exists_set_self, os_getsize_set_self, Option.isSome_some,
      Option.getD_some] at hfail ⊢
    split_ifs at hfail ⊢ with h1
    simp [os_remove, fsSet]
  | noFile =>
    simp only [gtts_tts]
    split_ifs
    · simp [os_remove, fsSet]
    · exact hnone
  | raised err =>
    simp only [gtts_tts]
    split_ifs
    · simp [os_remove, fsSet]
    · exact hnone

theorem pyttsx3_ok_exists (fs : FS) (out : String) (r : TtsLibResult)
    (hok : (pyttsx3_tts r fs out).2.2 = true) :
    os_path_exists (pyttsx3_tts r fs out).1 out = true := by
  cases r with
  | wrote size => simp [pyttsx3_tts, os_path_exists, fsSet]
  | noFile =>
    simp only [pyttsx3_tts] at hok ⊢
    split_ifs at hok ⊢ with h1
    exact h1
  | raised err =>
    simp only [pyttsx3_tts] at hok
    simp at hok

theorem edge_retry_first_success {edge : Nat → EdgeSaveResult} {out : String} {fs : FS}
    {sz : Nat} (hsave : edge 1 = EdgeSaveResult.wrote sz) (hsz : 1000 < sz) :
    edge_retry_go edge out 3 1 fs = (fsSet fs out (some sz), [ProvEvent.edgeCall 1], true) := by
  rw [edge_retry_go, hsave]
  simp only [do_edge_tts, edge_verify, os_path_exists, os_path_getsize, fsSet]
  simp [hsz]

/-! ### Claim C7 -/

/-- C7 (corrected): the cache lookup in `generate_voice_async` returns a hit
(the cached file, short-circuiting synthesis with zero provider invocations)
if and only if a file exists at the deterministic cache path for the processed
text — regardless of its size; the trivial-audio-file floor is not applied on
the cache read. -/
theorem C7_amended (p : Providers) (fs0 : FS) (text out : String)
    (voice : Option String) (htext : text ≠ "")
    (hproc : String.mk (preprocess_text text.data MAX_TEXT_LENGTH) ≠ "") :
    (os_path_exists fs0
        (get_cache_path (String.mk (preprocess_text text.data MAX_TEXT_LENGTH))) = true →
      (generate_voice_async p fs0 text (some out) voice).audio_path = some out ∧
      synthCalls (generate_voice_async p fs0 text (some out) voice).events = 0) ∧
    (os_path_exists fs0
        (get_cache_path (String.mk (preprocess_text text.data MAX_TEXT_LENGTH))) = false →
      1 ≤ synthCalls (generate_voice_async p fs0 text (some out) voice).events) := by
  constructor
  · intro hhit
    simp only [generate_voice_async, Option.getD]
    rw [if_neg htext, if_neg hproc, if_pos hhit]
    exact ⟨rfl, rfl⟩
  · intro hmiss
    simp only [generate_voice_async, Option.getD]
    rw [if_neg htext, if_neg hproc, if_neg (by rw [hmiss]; exact Bool.false_ne_true)]
    obtain ⟨s, hs⟩ :=
      gva_step3_events_head p (get_best_voice voice) out
        (get_cache_path (String.mk (preprocess_text text.data MAX_TEXT_LENGTH))) fs0 []
    rw [hs]
    exact synthCalls_cons_append [] s

/-- Counterexample for C7: a 5-byte file at the cache path — far below the
1 KB floor — is served as a cache hit (success, zero provider invocations)
instead of being treated as a miss. -/
theorem C7_counterexample :
    os_path_getsize fsSmallCache (get_cache_path hungaryProcessed) = 5 ∧
    ¬(1000 < os_path_getsize fsSmallCache (get_cache_path hungaryProcessed)) ∧
    (generate_voice_async provOk fsSmallCache hungary none none).audio_path =
      some DEFAULT_OUTPUT_PATH ∧
    synthCalls (generate_voice_async provOk fsSmallCache hungary none none).events = 0 := by
  refine ⟨by decide, by decide, by decide, by decide⟩

/-- Witness for C7: the amended hit direction applied to the 5-byte cache
file, and the miss direction applied to the empty filesystem. -/
theorem C7_amended_witness :
    ((generate_voice_async provOk fsSmallCache hungary
        (some DEFAULT_OUTPUT_PATH) none).audio_path = some DEFAULT_OUTPUT_PATH ∧
      synthCalls (generate_voice_async provOk fsSmallCache hungary
        (some DEFAULT_OUTPUT_PATH) none).events = 0) ∧
    1 ≤ synthCalls (generate_voice_async provOk emptyFS hungary
        (some DEFAULT_OUTPUT_PATH) none).events :=
  ⟨(C7_amended provOk fsSmallCache hungary DEFAULT_OUTPUT_PATH none
      (by decide) (by decide)).1 (by decide),
   (C7_amended provOk emptyFS hungary DEFAULT_OUTPUT_PATH none
      (by decide) (by decide)).2 (by decide)⟩

/-! ### Claim C2 -/

/-- Counterexample for C2: in scenario A (no cache entry, primary succeeds on
the first attempt with a 2000-byte file) the returned result has
`attempted_providers = []` — not the one-element primary-provider list — and
after the call no file exists at the deterministic cache path (the caching
step moves the file back out of the cache). -/
theorem C2_counterexample :
    (generate_voice provOk emptyFS hungary none none).result.success = true ∧
    (generate_voice provOk emptyFS hungary none none).result.attempted_providers = [] ∧
    (generate_voice provOk emptyFS hungary none none).result.attempted_providers ≠
      ["Edge TTS"] ∧
    (generate_voice provOk emptyFS hungary none none).fs
      (get_cache_path hungaryProcessed) = none := by
  refine ⟨by decide, by decide, by decide, by decide⟩

/-- C2 (corrected): with no prior cache entry, when the primary provider
succeeds on its first attempt with a file above the floor, the public entry
point returns `success = true` with the audio path, exactly one provider
invocation happened, the returned `attempted_providers` list is empty (the
success dictionary carries empty attempted lists), and after the call the
audio sits at the output path while the cache path holds no file. -/
theorem C2_amended (p : Providers) (fs0 : FS) (text out : String)
    (voice : Option String) (sz : Nat) (htext : text ≠ "")
    (hproc : String.mk (preprocess_text text.data MAX_TEXT_LENGTH) ≠ "")
    (hmiss : fs0 (get_cache_path (String.mk (preprocess_text text.data MAX_TEXT_LENGTH))) = none)
    (hedge : p.edge 1 = EdgeSaveResult.wrote sz) (hsz : 1000 < sz)
    (hne : out ≠ get_cache_path (String.mk (preprocess_text text.data MAX_TEXT_LENGTH))) :
    (generate_voice p fs0 text (some out) voice).result.success = true ∧
    (generate_voice p fs0 text (some out) voice).result.path = some out ∧
    (generate_voice p fs0 text (some out) voice).result.attempted_providers = [] ∧
    (generate_voice p fs0 text (some out) voice).fs out = some sz ∧
    (generate_voice p fs0 text (some out) voice).fs
      (get_cache_path (String.mk (preprocess_text text.data MAX_TEXT_LENGTH))) = none ∧
    synthCalls (generate_voice p fs0 text (some out) voice).events = 1 := by
  have hretry := @edge_retry_first_success p.edge out fs0 sz hedge hsz
  have hasync : generate_voice_async p fs0 text (some out) voice =
      cache_and_return (fsSet fs0 out (some sz)) out
        (get_cache_path (String.mk (preprocess_text text.data MAX_TEXT_LENGTH)))
        ([] ++ ProvEvent.attempted "Edge TTS" :: [ProvEvent.edgeCall 1]) := by
    simp only [generate_voice_async, Option.getD]
    rw [if_neg htext, if_neg hproc,
      if_neg (by simp [os_path_exists, hmiss])]
    simp only [gva_step3, edge_tts_with_smart_retry]
    rw [hretry]
    rw [if_pos ⟨rfl, by simp [os_path_exists, fsSet], by simp [os_path_getsize, fsSet, hsz]⟩]
  have hfs : (cache_and_return (fsSet fs0 out (some sz)) out
      (get_cache_path (String.mk (preprocess_text text.data MAX_TEXT_LENGTH)))
      ([] ++ ProvEvent.attempted "Edge TTS" :: [ProvEvent.edgeCall 1])).fs out = some sz ∧
      (cache_and_return (fsSet fs0 out (some sz)) out
      (get_cache_path (String.mk (preprocess_text text.data MAX_TEXT_LENGTH)))
      ([] ++ ProvEvent.attempted "Edge TTS" :: [ProvEvent.edgeCall 1])).fs
        (get_cache_path (String.mk (preprocess_text text.data MAX_TEXT_LENGTH))) = none := by
    constructor
    · simp [cache_and_return, os_replace, fsSet, hne, Ne.symm hne]
    · simp [cache_and_return, os_replace, fsSet, hne, Ne.symm hne]
  simp only [generate_voice, hasync, cache_and_return]
  refine ⟨trivial, trivial, trivial, ?_, ?_, by decide⟩
  · have := hfs.1
    simpa [cache_and_return] using this
  · have := hfs.2
    simpa [cache_and_return] using this

/-- Witness for C2: the amended statement applied to scenario A. -/
theorem C2_amended_witness :
    (generate_voice provOk emptyFS hungary (some DEFAULT_OUTPUT_PATH) none).result.success =
      true ∧
    (generate_voice provOk emptyFS hungary
      (some DEFAULT_OUTPUT_PATH) none).result.path = some DEFAULT_OUTPUT_PATH ∧
    (generate_voice provOk emptyFS hungary
      (some DEFAULT_OUTPUT_PATH) none).result.attempted_providers = [] ∧
    (generate_voice provOk emptyFS hungary
      (some DEFAULT_OUTPUT_PATH) none).fs DEFAULT_OUTPUT_PATH = some 2000 ∧
    (generate_voice provOk emptyFS hungary (some DEFAULT_OUTPUT_PATH) none).fs
      (get_cache_path (String.mk (preprocess_text hungary.data MAX_TEXT_LENGTH))) = none ∧
    synthCalls (generate_voice provOk emptyFS hungary
      (some DEFAULT_OUTPUT_PATH) none).events = 1 :=
  C2_amended provOk emptyFS hungary DEFAULT_OUTPUT_PATH none 2000
    (by decide) (by decide) rfl rfl (by decide) (by decide)

/-! ### Claim C1 -/

/-- C1 (code bug): after a first successful synthesis the caching sequence
`os.replace(output, cache); os.replace(cache, output)` moves the audio file
back out of the cache, so no cache entry persists; a second call with
identical text therefore misses the cache and invokes the primary provider
once more (one provider invocation, not zero), re-synthesizing instead of
serving the cached audio. -/
theorem C1_cache_not_persisted :
    (generate_voice_async provOk emptyFS hungary none none).audio_path =
      some DEFAULT_OUTPUT_PATH ∧
    (generate_voice_async provOk emptyFS hungary none none).fs
      (get_cache_path hungaryProcessed) = none ∧
    synthCalls (generate_voice_async provOk
      (generate_voice_async provOk emptyFS hungary none none).fs
      hungary none none).events = 1 ∧
    (generate_voice_async provOk
      (generate_voice_async provOk emptyFS hungary none none).fs
      hungary none none).audio_path = some DEFAULT_OUTPUT_PATH := by
  refine ⟨by decide, by decide, by decide, by decide⟩

/-! ### Claim C3 -/

/-- Counterexample for C3: in end-to-end scenario C (primary fails with
"no audio received", secondary unconfigured, tertiary succeeds) the result is
successful but its `attempted_providers` is the empty list — not
`["Edge TTS", "gTTS"]` (the code names of primary and tertiary) — and the
internally tracked attempted list contains the unconfigured `"ElevenLabs"`. -/
theorem C3_counterexample :
    (generate_voice provC3 emptyFS hungary none none).result.success = true ∧
    (generate_voice provC3 emptyFS hungary none none).result.attempted_providers = [] ∧
    (generate_voice provC3 emptyFS hungary none none).result.attempted_providers ≠
      ["Edge TTS", "gTTS"] ∧
    attemptedNames (generate_voice provC3 emptyFS hungary none none).events =
      ["Edge TTS", "ElevenLabs", "gTTS"] := by
  refine ⟨by decide, by decide, by decide, by decide⟩

/-- C3 (corrected): an unconfigured secondary provider returns immediately —
no network call, no classifier invocation, no retry, and no partial file —
but it is still appended to the attempted-providers tracking list before the
adapter runs; in scenario C the tracked list is
`["Edge TTS", "ElevenLabs", "gTTS"]` with zero ElevenLabs network calls and a
single classifier invocation (on the Edge error), while the successful
result reports `attempted_providers = []`. -/
theorem C3_amended :
    (∀ (http : ElevenHttpResult) (fs : FS) (out : String),
      elevenlabs_tts none http fs out = (fs, [ProvEvent.elevenSkip], false)) ∧
    ((generate_voice provC3 emptyFS hungary none none).result.success = true ∧
     (generate_voice provC3 emptyFS hungary none none).result.attempted_providers = [] ∧
     attemptedNames (generate_voice provC3 emptyFS hungary none none).events =
       ["Edge TTS", "ElevenLabs", "gTTS"] ∧
     elevenCalls (generate_voice provC3 emptyFS hungary none none).events = 0 ∧
     (generate_voice provC3 emptyFS hungary none none).events.contains
       ProvEvent.elevenSkip = true ∧
     classifyCalls (generate_voice provC3 emptyFS hungary none none).events = 1) := by
  refine ⟨fun http fs out => rfl, by decide, by decide, by decide, by decide, by decide,
    by decide⟩

/-! ### Claim C6 -/

/-- C6 (code bug): the synchronous entry point serializes via the module
lock, but each asynchronous call guards its Edge TTS section with a freshly
constructed `asyncio.Lock`, so two concurrent `generate_voice_async` calls
(and an async call concurrent with a sync call) hold different locks and can
have overlapping in-flight primary-provider sections, contradicting the
claimed process-wide serialization. -/
theorem C6_async_not_serialized :
    can_overlap TTSEntry.generate_voice_async 0 TTSEntry.generate_voice_async 1 = true ∧
    can_overlap TTSEntry.generate_voice 0 TTSEntry.generate_voice_async 1 = true ∧
    can_overlap TTSEntry.generate_voice 0 TTSEntry.generate_voice 1 = false := by
  refine ⟨by decide, by decide, by decide⟩

/-! ### Claim C8 -/

/-- Counterexample for C8: the pyttsx3 adapter validates existence only — a
5-byte output file (far below the 1000-byte floor) is reported as success —
and the ElevenLabs adapter reports success for a 5-byte HTTP-200 response
body without any post-write validation. -/
theorem C8_counterexample :
    ((pyttsx3_tts (TtsLibResult.wrote 5) emptyFS DEFAULT_OUTPUT_PATH).2.2 = true ∧
     os_path_getsize (pyttsx3_tts (TtsLibResult.wrote 5) emptyFS
       DEFAULT_OUTPUT_PATH).1 DEFAULT_OUTPUT_PATH = 5) ∧
    ((elevenlabs_tts (some "key") (ElevenHttpResult.response 200 5) emptyFS
        DEFAULT_OUTPUT_PATH).2.2 = true ∧
     os_path_getsize (elevenlabs_tts (some "key") (ElevenHttpResult.response 200 5)
        emptyFS DEFAULT_OUTPUT_PATH).1 DEFAULT_OUTPUT_PATH = 5) := by
  refine ⟨⟨by decide, by decide⟩, by decide, by decide⟩

/-- C8 (corrected): the Edge and gTTS adapters validate their output (file
exists and exceeds 1000 bytes) and leave no file at the output path on
failure (given none pre-existed); the pyttsx3 adapter validates existence
only, and the ElevenLabs adapter writes the HTTP-200 response body and
reports success with no validation at all. -/
theorem C8_amended :
    (∀ (fs : FS) (out : String) (save : EdgeSaveResult),
      (do_edge_tts fs out save).2 = Except.ok () →
      ∃ sz, (do_edge_tts fs out save).1 out = some sz ∧ 1000 < sz) ∧
    (∀ (fs : FS) (out : String) (save : EdgeSaveResult) (e : String),
      fs out = none → (do_edge_tts fs out save).2 = Except.error e →
      (do_edge_tts fs out save).1 out = none) ∧
    (∀ (fs : FS) (out : String) (g : TtsLibResult),
      (gtts_tts g fs out).2.2 = true →
      ∃ sz, (gtts_tts g fs out).1 out = some sz ∧ 1000 < sz) ∧
    (∀ (fs : FS) (out : String) (g : TtsLibResult),
      fs out = none → (gtts_tts g fs out).2.2 = false →
      (gtts_tts g fs out).1 out = none) ∧
    (∀ (fs : FS) (out : String) (r : TtsLibResult),
      (pyttsx3_tts r fs out).2.2 = true →
      os_path_exists (pyttsx3_tts r fs out).1 out = true) ∧
    (∀ (fs : FS) (out k : String) (sz : Nat),
      elevenlabs_tts (some k) (ElevenHttpResult.response 200 sz) fs out =
        (fsSet fs out (some sz), [ProvEvent.elevenCall], true)) :=
  ⟨edge_ok_size, edge_err_clean, gtts_ok_size, gtts_fail_clean, pyttsx3_ok_exists,
   fun _ _ _ _ => rfl⟩

/-- Witness for C8: the quantified conjuncts applied to concrete adapter
runs. -/
theorem C8_amended_witness :
    (∃ sz, (do_edge_tts emptyFS DEFAULT_OUTPUT_PATH
        (EdgeSaveResult.wrote 2000)).1 DEFAULT_OUTPUT_PATH = some sz ∧ 1000 < sz) ∧
    (do_edge_tts emptyFS DEFAULT_OUTPUT_PATH
      (EdgeSaveResult.wrote 5)).1 DEFAULT_OUTPUT_PATH = none ∧
    (∃ sz, (gtts_tts (TtsLibResult.wrote 1500) emptyFS
        DEFAULT_OUTPUT_PATH).1 DEFAULT_OUTPUT_PATH = some sz ∧ 1000 < sz) ∧
    (gtts_tts (TtsLibResult.wrote 5) emptyFS
      DEFAULT_OUTPUT_PATH).1 DEFAULT_OUTPUT_PATH = none ∧
    os_path_exists (pyttsx3_tts (TtsLibResult.wrote 5) emptyFS
      DEFAULT_OUTPUT_PATH).1 DEFAULT_OUTPUT_PATH = true :=
  ⟨C8_amended.1 emptyFS DEFAULT_OUTPUT_PATH (EdgeSaveResult.wrote 2000) rfl,
   C8_amended.2.1 emptyFS DEFAULT_OUTPUT_PATH (EdgeSaveResult.wrote 5)
     ("Invalid output file size: 5 bytes") rfl rfl,
   C8_amended.2.2.1 emptyFS DEFAULT_OUTPUT_PATH (TtsLibResult.wrote 1500) (by decide),
   C8_amended.2.2.2.1 emptyFS DEFAULT_OUTPUT_PATH (TtsLibResult.wrote 5) rfl (by decide),
   C8_amended.2.2.2.2.1 emptyFS DEFAULT_OUTPUT_PATH (TtsLibResult.wrote 5) (by decide)⟩

end TTS
